import Mathlib

/-!
Verification of the numeric core of the crypto breakout screener.

The JavaScript source (technical-indicator library, breakout detector,
multi-timeframe aggregator, backtester, signal generator and parameter
optimizer) is shallowly embedded below.  Prices, volumes and scores are
modelled as rationals (JS numbers are floats; none of the proved
properties depends on float rounding).  JS `null`/`undefined` array
entries and absent object properties are modelled with `Option`;
comparisons follow the JS coercions at the places where the source can
actually compare against `null`/`undefined` (noted inline).  Division is
the total rational division (`x / 0 = 0`); at the spots where the source
can divide by zero and the outcome matters, an explicit branch
reproduces the JS float outcome (noted inline).  `Math.sqrt`, a float
operation, is modelled by a rational square root that is exact on
perfect squares; every theorem below that looks at a Bollinger
comparison is evaluated at inputs where the comparison outcome is the
same under the exact real square root.
-/

-- The four core rational operations are shipped `@[irreducible]`; the
-- concrete evaluations below need them visible to `decide`'s reduction.
attribute [local semireducible] Rat.add Rat.mul Rat.inv Rat.sub Rat.ofScientific

set_option maxRecDepth 100000

/-- JS `Math.round`: round half toward positive infinity, `⌊x + 1/2⌋`. -/
def jsRound (x : ℚ) : ℤ := ⌊x + 1/2⌋

/-- JS `a || b` on an optionally-present number: falls back when the value
is absent (`undefined`) or `0` (falsy). -/
def jsOrNum (a b : Option ℚ) : Option ℚ :=
  match a with
  | some x => if x = 0 then b else some x
  | none => b

/-- JS `a || b` on strings: falls back when the first is empty (falsy). -/
def jsOrStr (a b : String) : String := if a = "" then b else a

/-- Default-merging `options.f || d` for a numeric option: the default is
used when the field is absent or `0` (falsy). -/
def jsOrD (a : Option ℚ) (d : ℚ) : ℚ :=
  match a with
  | some x => if x = 0 then d else x
  | none => d

/-- JS `Math.max(...xs)`; the empty case (JS `-Infinity`) is unreachable
in every use below and is mapped to `0`. -/
def listMax : List ℚ → ℚ
  | [] => 0
  | x :: xs => xs.foldl max x

/-- JS `Math.min(...xs)`; empty case as in `listMax`. -/
def listMin : List ℚ → ℚ
  | [] => 0
  | x :: xs => xs.foldl min x

/-- Largest `k` with `k * k ≤ n`, by downward search (kernel-friendly). -/
def natSqrtAux (n : ℕ) : ℕ → ℕ
  | 0 => 0
  | k + 1 => if (k + 1) * (k + 1) ≤ n then k + 1 else natSqrtAux n k

/-- JS `Math.sqrt` modelled as a rational square root, exact on perfect
squares (in particular on `0`, the only value the symbolic proofs rely
on). -/
def jsSqrt (q : ℚ) : ℚ :=
  (natSqrtAux q.num.toNat q.num.toNat : ℚ) / (natSqrtAux q.den q.den : ℚ)

/-- Source `zipWith` over three lists, stopping at the shortest. -/
def zip3With (f : α → β → γ → δ) : List α → List β → List γ → List δ
  | a :: as, b :: bs, c :: cs => f a b c :: zip3With f as bs cs
  | _, _, _ => []

/-! ## Indicator library (`technicalIndicators.js`) -/

/-- Source `calculateSMA(data, period)`: same-length output, `null` before index
`period - 1`, trailing arithmetic mean of the `period` previous values. -/
def calculateSMA (data : List ℚ) (period : ℕ) : List (Option ℚ) :=
  if data.length < period then List.replicate data.length none
  else
    (List.range data.length).map fun i =>
      if i < period - 1 then none
      else some ((((List.range period).map fun j => data.getD (i - j) 0).sum) / period)

/-- The EMA recurrence `ema = (x - ema) * multiplier + ema`, emitted once
per remaining data point. -/
def emaScan (multiplier : ℚ) : ℚ → List ℚ → List ℚ
  | _, [] => []
  | e, x :: xs =>
    let e2 := (x - e) * multiplier + e
    e2 :: emaScan multiplier e2 xs

/-- Source `calculateEMA(data, period)`: seeded with the SMA of the first
`period` values, multiplier `2 / (period + 1)`.  (The JS function throws
on `period = 0` via `Array(-1)`; the embedding is only used, and only
claimed faithful, for `period ≥ 1`.) -/
def calculateEMA (data : List ℚ) (period : ℕ) : List (Option ℚ) :=
  if data.length < period then List.replicate data.length none
  else
    let multiplier : ℚ := 2 / ((period : ℚ) + 1)
    let ema := (data.take period).sum / period
    List.replicate (period - 1) none ++ [some ema] ++
      (emaScan multiplier ema (data.drop period)).map some

/-- The JS `changes` array without its leading `0` entry:
`changes[i] = data[i] - data[i-1]` for `i ≥ 1`.  (The leading `0` of the
JS array is skipped by every loop of `calculateRSI`.) -/
def priceDiffs (data : List ℚ) : List ℚ :=
  List.zipWith (fun a b => b - a) data data.tail

/-- Gain part of a price change (`change > 0 ? change : 0`). -/
def gainOf (c : ℚ) : ℚ := if 0 < c then c else 0

/-- Loss part of a price change (`Math.abs` of the nonpositive part). -/
def lossOf (c : ℚ) : ℚ := if 0 < c then 0 else -c

/-- Wilder smoothing loop of `calculateRSI`, carrying the running average
gain and loss; the `0.001` floor guards the division when the average
loss is zero. -/
def rsiScan (period : ℚ) : ℚ → ℚ → List ℚ → List ℚ
  | _, _, [] => []
  | g, l, c :: cs =>
    let g2 := ((g * (period - 1)) + gainOf c) / period
    let l2 := ((l * (period - 1)) + lossOf c) / period
    let rs := g2 / (if l2 = 0 then 1/1000 else l2)
    (100 - 100 / (1 + rs)) :: rsiScan period g2 l2 cs

/-- Source `calculateRSI(data, period = 14)`. -/
def calculateRSI (data : List ℚ) (period : ℕ := 14) : List (Option ℚ) :=
  if data.length < period + 1 then List.replicate data.length none
  else
    let changes := priceDiffs data
    let avgGain := ((changes.take period).map gainOf).sum / period
    let avgLoss := ((changes.take period).map lossOf).sum / period
    let rs := avgGain / (if avgLoss = 0 then 1/1000 else avgLoss)
    let rsi := 100 - 100 / (1 + rs)
    List.replicate period none ++ [some rsi] ++
      (rsiScan (period : ℚ) avgGain avgLoss (changes.drop period)).map some

/-- Wilder smoothing loop of `calculateATR`. -/
def atrScan (period : ℚ) : ℚ → List ℚ → List ℚ
  | _, [] => []
  | a, t :: ts =>
    let a2 := ((a * (period - 1)) + t) / period
    a2 :: atrScan period a2 ts

/-- The true-range series: `TR[0] = high[0] - low[0]`, then
`max(high-low, |high - prevClose|, |low - prevClose|)`. -/
def trueRanges (highData lowData closeData : List ℚ) : List ℚ :=
  (highData.headD 0 - lowData.headD 0) ::
    zip3With (fun h l c => max (h - l) (max |h - c| |l - c|))
      highData.tail lowData.tail closeData

/-- Source `calculateATR(high, low, close, period = 14)`.  Mirrors the source
exactly, including the branch where fewer than `period` true ranges
exist: there the JS function returns `period` nulls (not
`highData.length` nulls). -/
def calculateATR (highData lowData closeData : List ℚ) (period : ℕ) : List (Option ℚ) :=
  if highData.length < 2 ∨ highData.length ≠ lowData.length ∨
      lowData.length ≠ closeData.length then
    List.replicate highData.length none
  else
    let trs := trueRanges highData lowData closeData
    if period ≤ trs.length then
      let atr := (trs.take period).sum / period
      List.replicate (period - 1) none ++ [some atr] ++
        (atrScan (period : ℚ) atr (trs.drop period)).map some
    else
      List.replicate period none

/-- One Bollinger-band entry; all fields `null` during warm-up. -/
structure BBPoint where
  upper : Option ℚ
  middle : Option ℚ
  lower : Option ℚ
  width : Option ℚ
  percent : Option ℚ
deriving DecidableEq

/-- The all-null Bollinger entry. -/
def bbNone : BBPoint := ⟨none, none, none, none, none⟩

/-- Source `calculateBollingerBands(data, period = 20, standardDeviations = 2)`:
middle = SMA, population standard deviation over the same trailing
window, `width = (upper - lower) / middle`, `percent` is `null` when the
price is `0` (JS falsy test `data[i] ? … : null`). -/
def calculateBollingerBands (data : List ℚ) (period : ℕ) (standardDeviations : ℚ) :
    List BBPoint :=
  if data.length < period then List.replicate data.length bbNone
  else
    let sma := calculateSMA data period
    (List.range data.length).map fun i =>
      if i < period - 1 then bbNone
      else
        let m := (sma.getD i none).getD 0
        let varSum := (((List.range period).map fun j => (data.getD (i - j) 0 - m) ^ 2).sum) / period
        let stdDev := jsSqrt varSum
        let upper := m + standardDeviations * stdDev
        let lower := m - standardDeviations * stdDev
        let width := (upper - lower) / m
        let pB := if data.getD i 0 = 0 then none
                  else some ((data.getD i 0 - lower) / (upper - lower))
        ⟨some upper, some m, some lower, some width, pB⟩

/-- The cumulative OBV loop. -/
def obvScan (obv : ℚ) : List (ℚ × ℚ × ℚ) → List ℚ
  | [] => []
  | (prev, cur, vol) :: rest =>
    let o2 := if prev < cur then obv + vol else if cur < prev then obv - vol else obv
    o2 :: obvScan o2 rest

/-- Source `calculateOBV(close, volume)`: starts at `volume[0]`, adds volume on a
close rise, subtracts on a fall; all-null on a length mismatch or empty
input. -/
def calculateOBV (closeData volumeData : List ℚ) : List (Option ℚ) :=
  if closeData.length ≠ volumeData.length ∨ closeData.length = 0 then
    List.replicate closeData.length none
  else
    let steps := zip3With (fun prev cur vol => (prev, cur, vol))
      closeData closeData.tail volumeData.tail
    some (volumeData.getD 0 0) :: (obvScan (volumeData.getD 0 0) steps).map some

/-- One MACD entry; all fields `null` during warm-up. -/
structure MACDPoint where
  macd : Option ℚ
  signal : Option ℚ
  histogram : Option ℚ
deriving DecidableEq

/-- The all-null MACD entry. -/
def macdNone : MACDPoint := ⟨none, none, none⟩

/-- Source `calculateMACD(data, fast = 12, slow = 26, signal = 9)`: MACD line is
fast EMA minus slow EMA (null where either is null); the signal line is
the EMA of the non-null tail, left-padded with nulls; the histogram is
their difference, all-null where either component is null. -/
def calculateMACD (data : List ℚ) (fastPeriod : ℕ := 12) (slowPeriod : ℕ := 26)
    (signalPeriod : ℕ := 9) : List MACDPoint :=
  if data.length < max fastPeriod slowPeriod + signalPeriod then
    List.replicate data.length macdNone
  else
    let fastEMA := calculateEMA data fastPeriod
    let slowEMA := calculateEMA data slowPeriod
    let macdLine := List.zipWith
      (fun f s => match f, s with
        | some a, some b => some (a - b)
        | _, _ => (none : Option ℚ)) fastEMA slowEMA
    let validMacdValues := macdLine.filterMap id
    let signalLine :=
      if signalPeriod ≤ validMacdValues.length then
        List.replicate (macdLine.length - validMacdValues.length) (none : Option ℚ) ++
          calculateEMA validMacdValues signalPeriod
      else
        List.replicate macdLine.length (none : Option ℚ)
    List.zipWith
      (fun m s => match m, s with
        | some a, some b => (⟨some a, some b, some (a - b)⟩ : MACDPoint)
        | _, _ => macdNone) macdLine signalLine

/-- Source `isPriceConsolidating(data, period = 6, threshold = 0.15)`: range of
the last `period` closes relative to their max.  The length guard is the
JS numeric comparison (the period can be fractional when it comes from
the optimizer; `slice` truncates it).  The all-zero-price case (JS
`0/0 = NaN`, test false) is not special-cased here: every evaluation
below has a positive max. -/
def isPriceConsolidating (data : List ℚ) (period : ℚ := 6) (threshold : ℚ := 0.15) : Bool :=
  if (data.length : ℚ) < period then false
  else
    let recentData := data.drop (data.length - (⌊period⌋).toNat)
    let mx := listMax recentData
    let mn := listMin recentData
    decide ((mx - mn) / mx ≤ threshold)

/-- Source `isVolumeIncreasing(volume, threshold = 0.10)`.  The `previous = 0`
branch reproduces the JS float outcome `(cur - 0)/0 = ±Infinity` (or
`NaN` when `cur = 0`): the test holds exactly when `cur > 0`. -/
def isVolumeIncreasing (volumeData : List ℚ) (threshold : ℚ := 0.10) : Bool :=
  if volumeData.length < 2 then false
  else
    let current := volumeData.getD (volumeData.length - 1) 0
    let previous := volumeData.getD (volumeData.length - 2) 0
    if previous = 0 then decide (0 < current)
    else decide (threshold < (current - previous) / previous)

/-- Source `detectBollingerBreakout(price, bb, lookback = 10)`: the close was at
or below the upper band one bar ago and is above it now.  A `null` upper
band coerces to `0` in the JS comparisons (`getD 0`). -/
def detectBollingerBreakout (priceData : List ℚ) (bbData : List BBPoint)
    (lookbackPeriod : ℕ := 10) : Bool :=
  if priceData.length < lookbackPeriod ∨ bbData.length < lookbackPeriod then false
  else
    let recentPrices := priceData.drop (priceData.length - lookbackPeriod)
    let recentBB := bbData.drop (bbData.length - lookbackPeriod)
    decide (recentPrices.getD (recentPrices.length - 2) 0 ≤
      ((recentBB.getD (recentBB.length - 2) bbNone).upper.getD 0)) &&
    decide (((recentBB.getD (recentBB.length - 1) bbNone).upper.getD 0) <
      recentPrices.getD (recentPrices.length - 1) 0)

/-- The body of the local-minimum scan of `detectPositiveRSIDivergence`,
structurally recursive on the remaining trip count `d = length - 5 - i`
(so `d = 0` is exactly the loop condition `i < length - 5` failing):
record the first index whose value is at or below the min of the five
preceding and five following values, stop as soon as a second one is
found. -/
def findTwoLowsAux (recent : List ℚ) : ℕ → ℕ → Option ℕ → Option (ℕ × ℕ)
  | 0, _, _ => none
  | d + 1, i, first =>
    let current := recent.getD i 0
    let previousFive := (recent.drop (i - 5)).take 5
    let nextFive := (recent.drop (i + 1)).take 5
    if current ≤ listMin (previousFive ++ nextFive) then
      match first with
      | none => findTwoLowsAux recent d (i + 1) (some i)
      | some f => some (f, i)
    else findTwoLowsAux recent d (i + 1) first

/-- The local-minimum scan: walk `i` while `i < recent.length - 5`. -/
def findTwoLows (recent : List ℚ) (i : ℕ) (first : Option ℕ) : Option (ℕ × ℕ) :=
  findTwoLowsAux recent (recent.length - 5 - i) i first

/-- Source `detectPositiveRSIDivergence(price, rsi, lookback = 20)`: two local
price minima inside the lookback window, the second strictly lower in
price but strictly higher in RSI.  `null` RSI entries coerce to `0` in
the JS comparison (`getD 0`). -/
def detectPositiveRSIDivergence (priceData : List ℚ) (rsiData : List (Option ℚ))
    (lookbackPeriod : ℚ := 20) : Bool :=
  if (priceData.length : ℚ) < lookbackPeriod ∨ (rsiData.length : ℚ) < lookbackPeriod then
    false
  else
    let k := (⌊lookbackPeriod⌋).toNat
    let recentPrices := priceData.drop (priceData.length - k)
    let recentRSI := rsiData.drop (rsiData.length - k)
    match findTwoLows recentPrices 5 none with
    | none => false
    | some (f, s) =>
      decide (recentPrices.getD s 0 < recentPrices.getD f 0) &&
      decide ((recentRSI.getD f none).getD 0 < (recentRSI.getD s none).getD 0)

/-! ## Breakout analysis (`breakoutDetector.js`) -/

/-- One OHLCV candle.  `opn` is the JS `open` field (a Lean keyword). -/
structure Candle where
  time : ℤ
  opn : ℚ
  high : ℚ
  low : ℚ
  close : ℚ
  volume : ℚ
deriving DecidableEq

/-- A default candle, used only as the (unreachable) out-of-range default
of indexing operations. -/
def defCandle : Candle := ⟨0, 0, 0, 0, 0, 0⟩

/-- The flat option bag every core entry point receives.  Absent fields
are `none`; JS default-merging with `||` is `jsOrD` (so an explicit `0`
also selects the default). -/
structure Options where
  consolidationPeriod : Option ℚ := none
  consolidationThreshold : Option ℚ := none
  rsiLowerThreshold : Option ℚ := none
  rsiUpperThreshold : Option ℚ := none
  volumeIncreaseThreshold : Option ℚ := none
  minBreakoutPercent : Option ℚ := none
  maxBreakoutPercent : Option ℚ := none
  bollingerPeriod : Option ℚ := none
  atrPeriod : Option ℚ := none
  lookbackPeriod : Option ℚ := none
  ema200Required : Option Bool := none
  minMTFScore : Option ℚ := none
  minAlignmentScore : Option ℚ := none
  minDailyScore : Option ℚ := none
  requireEma200 : Option Bool := none
  maxPrice : Option ℚ := none
  riskReward : Option ℚ := none
  maxStopLossPercent : Option ℚ := none
  minProfitPotential : Option String := none
deriving DecidableEq

/-- JS `x || null` on a number already wrapped in an option (`?.width ||
null`): `0` is falsy and becomes `null`. -/
def jsOrNull (a : Option ℚ) : Option ℚ :=
  match a with
  | some x => if x = 0 then none else some x
  | none => none

/-- The `metrics` sub-object of an analysis result. -/
structure Metrics where
  rsi : Option ℚ
  bollingerWidth : Option ℚ
  bollingerPercent : Option ℚ
  atr : Option ℚ
  aboveEma200 : Option Bool
  priceChangePercent : ℚ
  volumeChangePercent : ℚ
deriving DecidableEq

/-- Source `AnalysisResult`: score, evidence and levels for one candle series. -/
structure AnalysisResult where
  isBreakoutCandidate : Bool
  breakoutScore : ℚ
  signals : List String
  metrics : Metrics
  profitPotential : String
  riskLevel : String
  suggestedStopLoss : Option ℚ
  suggestedTakeProfit : Option ℚ
deriving DecidableEq

/-- Source `calculateProfitPotential`: tier from ATR percentage and score (the
`bbData` parameter is accepted and ignored, as in the source). -/
def calculateProfitPotential (closeData : List ℚ) (atrData : List (Option ℚ))
    (bbData : List BBPoint) (breakoutScore : ℚ) : String :=
  match atrData.getD (atrData.length - 1) none with
  | none => "Unknown"
  | some currentATR =>
    if closeData.length < 20 then "Unknown"
    else
      let currentPrice := closeData.getD (closeData.length - 1) 0
      let atrPercentage := currentATR / currentPrice * 100
      if 5 < atrPercentage ∧ 85 < breakoutScore then "Very High"
      else if 3 < atrPercentage ∧ 75 < breakoutScore then "High"
      else if 2 < atrPercentage ∧ 65 < breakoutScore then "Medium"
      else "Low"

/-- Source `calculateRiskLevel`: tier from ATR percentage alone (the
`breakoutScore` parameter is accepted and ignored, as in the source). -/
def calculateRiskLevel (closeData : List ℚ) (atrData : List (Option ℚ))
    (breakoutScore : ℚ) : String :=
  match atrData.getD (atrData.length - 1) none with
  | none => "Unknown"
  | some currentATR =>
    if closeData.length < 20 then "Unknown"
    else
      let currentPrice := closeData.getD (closeData.length - 1) 0
      let atrPercentage := currentATR / currentPrice * 100
      if 8 < atrPercentage then "Very High"
      else if 5 < atrPercentage then "High"
      else if 3 < atrPercentage then "Medium"
      else "Low"

/-- Condition 2 of `analyzeBreakout`: the latest RSI is non-null
(explicit `!== null` test) and inside the configured band. -/
def rsiInRange (rsiData : List (Option ℚ)) (lowerTh upperTh : ℚ) : Bool :=
  match rsiData.getD (rsiData.length - 1) none with
  | some r => decide (lowerTh ≤ r) && decide (r ≤ upperTh)
  | none => false

/-- Condition 3 of `analyzeBreakout`: the latest Bollinger width is
non-null (explicit `!== null` test) and at most 1. -/
def bbCompressed (bbData : List BBPoint) : Bool :=
  match (bbData.getD (bbData.length - 1) bbNone).width with
  | some w => decide (w ≤ 1)
  | none => false

/-- Condition 5 of `analyzeBreakout`: the latest close is above the
non-null 200-EMA; waived (true) when the check is not required. -/
def aboveEma200Cond (ema200 : List (Option ℚ)) (closeLast : ℚ) (required : Bool) : Bool :=
  if required then
    match ema200.getD (ema200.length - 1) none with
    | some e => decide (e < closeLast)
    | none => false
  else true

/-- Condition 8 of `analyzeBreakout`: MACD histogram crosses from ≤ 0 to
> 0 between the previous and current bar.  The elements are always
objects, so only the index range guards the access, and a `null`
histogram coerces to `0` in the JS comparisons. -/
def macdCrossover (macdData : List MACDPoint) : Bool :=
  if macdData.length < 2 then false
  else
    decide ((macdData.getD (macdData.length - 2) macdNone).histogram.getD 0 ≤ 0) &&
    decide (0 < (macdData.getD (macdData.length - 1) macdNone).histogram.getD 0)

/-- Condition 9 of `analyzeBreakout`: OBV rose by more than 5% over the
last 5 bars.  An out-of-range JS access would compare against
`undefined` (false), hence the length guard. -/
def obvAccumulating (obvData : List (Option ℚ)) : Bool :=
  if obvData.length < 5 then false
  else
    let currentOBV := (obvData.getD (obvData.length - 1) none).getD 0
    let previousOBV := (obvData.getD (obvData.length - 5) none).getD 0
    decide (previousOBV < currentOBV) &&
    decide (0.05 * previousOBV < currentOBV - previousOBV)

/-- Condition 10 of `analyzeBreakout`: the latest price-change fraction
is inside the breakout band.  With fewer than two closes, or a zero
previous close, the JS comparison on `NaN`/`±Infinity` is false. -/
def breakoutPercentCond (closeData : List ℚ) (minB maxB : ℚ) : Bool :=
  if closeData.length < 2 ∨ closeData.getD (closeData.length - 2) 0 = 0 then false
  else
    let closeLast := closeData.getD (closeData.length - 1) 0
    let closePrev := closeData.getD (closeData.length - 2) 0
    let priceChange := (closeLast - closePrev) / closePrev
    decide (minB ≤ priceChange) && decide (priceChange ≤ maxB)

/-- Source `analyzeBreakout(data, options)`: merge the defaults, compute all
indicators, accumulate the ten weighted conditions in source order, cap
the score at 100, flag a candidate at `score ≥ 70` and attach stop and
target (1 ATR below, 1 : 3 reward) when the ATR is available. -/
def analyzeBreakout (data : List Candle) (options : Options) : AnalysisResult :=
  let consolidationPeriod := jsOrD options.consolidationPeriod 6
  let consolidationThreshold := jsOrD options.consolidationThreshold 0.15
  let rsiLowerThreshold := jsOrD options.rsiLowerThreshold 50
  let rsiUpperThreshold := jsOrD options.rsiUpperThreshold 75
  let volumeIncreaseThreshold := jsOrD options.volumeIncreaseThreshold 0.10
  let minBreakoutPercent := jsOrD options.minBreakoutPercent 0.01
  let maxBreakoutPercent := jsOrD options.maxBreakoutPercent 0.20
  let bollingerPeriod := jsOrD options.bollingerPeriod 20
  let atrPeriod := jsOrD options.atrPeriod 14
  let lookbackPeriod := jsOrD options.lookbackPeriod 20
  let ema200Required := options.ema200Required.getD true
  let closeData := data.map Candle.close
  let highData := data.map Candle.high
  let lowData := data.map Candle.low
  let volumeData := data.map Candle.volume
  let rsiData := calculateRSI closeData
  let bbData := calculateBollingerBands closeData ((⌊bollingerPeriod⌋).toNat) 2
  let ema200 := calculateEMA closeData 200
  let atrData := calculateATR highData lowData closeData ((⌊atrPeriod⌋).toNat)
  let obvData := calculateOBV closeData volumeData
  let macdData := calculateMACD closeData
  let closeLast := closeData.getD (closeData.length - 1) 0
  let closePrev := closeData.getD (closeData.length - 2) 0
  -- 1. consolidation (+20)
  let cond1 := isPriceConsolidating closeData consolidationPeriod consolidationThreshold
  -- 2. RSI in the configured range (+15)
  let currentRSI := rsiData.getD (rsiData.length - 1) none
  let cond2 := rsiInRange rsiData rsiLowerThreshold rsiUpperThreshold
  -- 3. Bollinger width ≤ 1 (+15)
  let currentBB := bbData.getD (bbData.length - 1) bbNone
  let cond3 := bbCompressed bbData
  -- 4. Bollinger breakout (+20)
  let cond4 := detectBollingerBreakout closeData bbData
  -- 5. above the 200 EMA, or the check is waived (+10)
  let cond5 := aboveEma200Cond ema200 closeLast ema200Required
  -- 6. volume increasing (+15)
  let cond6 := isVolumeIncreasing volumeData volumeIncreaseThreshold
  -- 7. positive RSI divergence (+15)
  let cond7 := detectPositiveRSIDivergence closeData rsiData lookbackPeriod
  -- 8. MACD bullish crossover (+15)
  let cond8 := macdCrossover macdData
  -- 9. OBV accumulation over 5 bars (+10)
  let cond9 := obvAccumulating obvData
  -- 10. last price change inside the breakout band (+15)
  let cond10 := breakoutPercentCond closeData minBreakoutPercent maxBreakoutPercent
  let score : ℚ :=
    (if cond1 then 20 else 0) + (if cond2 then 15 else 0) + (if cond3 then 15 else 0) +
    (if cond4 then 20 else 0) + (if cond5 then 10 else 0) + (if cond6 then 15 else 0) +
    (if cond7 then 15 else 0) + (if cond8 then 15 else 0) + (if cond9 then 10 else 0) +
    (if cond10 then 15 else 0)
  let signals :=
    (if cond1 then ["Price consolidation detected"] else []) ++
    (if cond2 then ["RSI in optimal range"] else []) ++
    (if cond3 then ["Bollinger Band compression"] else []) ++
    (if cond4 then ["Bollinger Band breakout"] else []) ++
    (if ema200Required && cond5 then ["Price above EMA200"] else []) ++
    (if cond6 then ["Volume increasing"] else []) ++
    (if cond7 then ["Positive RSI divergence"] else []) ++
    (if cond8 then ["MACD bullish crossover"] else []) ++
    (if cond9 then ["OBV accumulation"] else []) ++
    (if cond10 then ["Ideal breakout percentage"] else [])
  let breakoutScore := min 100 score
  let isBreakoutCandidate := decide ((70 : ℚ) ≤ breakoutScore)
  let currentATR := atrData.getD (atrData.length - 1) none
  let stop : Option ℚ :=
    if isBreakoutCandidate then
      match currentATR with
      | some a => some ((jsRound ((closeLast - a) * 10000) : ℚ) / 10000)
      | none => none
    else none
  let target : Option ℚ :=
    if isBreakoutCandidate then
      match currentATR, stop with
      | some _, some s => some ((jsRound ((closeLast + (closeLast - s) * 3) * 10000) : ℚ) / 10000)
      | _, _ => none
    else none
  { isBreakoutCandidate
    breakoutScore
    signals
    metrics :=
      { rsi := currentRSI
        bollingerWidth := jsOrNull currentBB.width
        bollingerPercent := jsOrNull currentBB.percent
        atr := currentATR
        aboveEma200 := match ema200.getD (ema200.length - 1) none with
          | some e => some (decide (e < closeLast))
          | none => none
        priceChangePercent := (closeLast - closePrev) / closePrev * 100
        volumeChangePercent :=
          let volLast := volumeData.getD (volumeData.length - 1) 0
          let volPrev := volumeData.getD (volumeData.length - 2) 0
          (volLast - volPrev) / volPrev * 100 }
    profitPotential := calculateProfitPotential closeData atrData bbData breakoutScore
    riskLevel := calculateRiskLevel closeData atrData breakoutScore
    suggestedStopLoss := stop
    suggestedTakeProfit := target }

/-- Source `MTFResult`: the combined three-timeframe analysis. -/
structure MTFResult where
  mtfScore : ℚ
  alignmentScore : ℕ
  hourlyScore : ℚ
  fourHourScore : ℚ
  dailyScore : ℚ
  isConfirmedBreakout : Bool
  combinedSignals : List String
  profitPotential : String
  riskLevel : String
  suggestedStopLoss : Option ℚ
  suggestedTakeProfit : Option ℚ
deriving DecidableEq

/-- Source `multiTimeframeAnalysis(hourly, fourHour, daily, options)`.  Note the
fallbacks of the source: profit potential and risk level fall back from
daily to four-hour only, stop and target fall back from four-hour to
hourly only, and the fallback fires on any JS-falsy value. -/
def multiTimeframeAnalysis (hourlyData fourHourData dailyData : List Candle)
    (options : Options) : MTFResult :=
  let hourlyResults := analyzeBreakout hourlyData options
  let fourHourResults := analyzeBreakout fourHourData options
  let dailyResults := analyzeBreakout dailyData options
  let alignmentScore :=
    (if hourlyResults.isBreakoutCandidate then 1 else 0) +
    (if fourHourResults.isBreakoutCandidate then 2 else 0) +
    (if dailyResults.isBreakoutCandidate then 3 else 0)
  let weightedScore :=
    hourlyResults.breakoutScore * 0.2 + fourHourResults.breakoutScore * 0.3 +
      dailyResults.breakoutScore * 0.5
  { mtfScore := (jsRound weightedScore : ℚ)
    alignmentScore
    hourlyScore := hourlyResults.breakoutScore
    fourHourScore := fourHourResults.breakoutScore
    dailyScore := dailyResults.breakoutScore
    isConfirmedBreakout := decide (4 ≤ alignmentScore) && decide ((75 : ℚ) ≤ weightedScore)
    combinedSignals :=
      hourlyResults.signals.map (fun s => "1H: " ++ s) ++
      fourHourResults.signals.map (fun s => "4H: " ++ s) ++
      dailyResults.signals.map (fun s => "1D: " ++ s)
    profitPotential := jsOrStr dailyResults.profitPotential fourHourResults.profitPotential
    riskLevel := jsOrStr dailyResults.riskLevel fourHourResults.riskLevel
    suggestedStopLoss := jsOrNum fourHourResults.suggestedStopLoss hourlyResults.suggestedStopLoss
    suggestedTakeProfit := jsOrNum fourHourResults.suggestedTakeProfit hourlyResults.suggestedTakeProfit }

/-! ## Backtester (`backtestBreakoutStrategy`) -/

/-- One simulated trade. -/
structure Trade where
  entryBar : ℕ
  entryPrice : ℚ
  stopLoss : Option ℚ
  takeProfit : Option ℚ
  exitPrice : Option ℚ
  exitType : String
  barsHeld : ℕ
  pnl : ℚ
  date : ℤ
deriving DecidableEq

/-- The forward scan of one simulated trade: walk `j` from `i + 1` while
`j < min(i + 20, length)`; exit at the stop if the bar's low touches it,
else at the target if the bar's high touches it, else carry a time exit
set on the final bar.  A missing stop or target (`undefined`) makes its
comparison false, as in JS. -/
def tradeScan (data : List Candle) (stop target : Option ℚ) (i : ℕ)
    (j barsHeld : ℕ) (exitPrice : Option ℚ) (exitType : String) :
    Option ℚ × String × ℕ :=
  if h : j < min (i + 20) data.length then
    let currentBar := data.getD j defCandle
    let b := barsHeld + 1
    if (match stop with | some s => decide (currentBar.low ≤ s) | none => false) then
      (stop, "Stop Loss", b)
    else if (match target with | some t => decide (t ≤ currentBar.high) | none => false) then
      (target, "Take Profit", b)
    else if j = min (i + 19) (data.length - 1) then
      tradeScan data stop target i (j + 1) b (some currentBar.close) "Time Exit"
    else
      tradeScan data stop target i (j + 1) b exitPrice exitType
  else (exitPrice, exitType, barsHeld)
termination_by min (i + 20) data.length - j
decreasing_by all_goals omega

/-- One step of the backtest walk at bar `i`: analyze the strict prefix
`data[0..i)` and, on a candidate, simulate and record the trade opened
at `close[i]`. -/
def backtestStep (data : List Candle) (options : Options) (i : ℕ) : Option Trade :=
  let analysis := analyzeBreakout (data.take i) options
  if analysis.isBreakoutCandidate then
    let entryPrice := (data.getD i defCandle).close
    let stop := analysis.suggestedStopLoss
    let target := analysis.suggestedTakeProfit
    let scan := tradeScan data stop target i (i + 1) 0 none ("")
    some
      { entryBar := i
        entryPrice
        stopLoss := stop
        takeProfit := target
        exitPrice := scan.1
        exitType := scan.2.1
        barsHeld := scan.2.2
        pnl := (scan.1.getD 0 - entryPrice) / entryPrice * 100
        date := (data.getD i defCandle).time }
  else none

/-- The outer backtest walk, structurally recursive on the remaining
fuel: on a recorded trade, jump `i` past the held bars (plus the loop
increment), otherwise advance one bar. -/
def backtestLoopAux (data : List Candle) (options : Options) :
    ℕ → ℕ → List Trade → List Trade
  | 0, _, acc => acc
  | fuel + 1, i, acc =>
    if i < data.length - 20 then
      match backtestStep data options i with
      | some trade => backtestLoopAux data options fuel (i + trade.barsHeld + 1) (acc ++ [trade])
      | none => backtestLoopAux data options fuel (i + 1) acc
    else acc

/-- The backtest walk from bar `i`.  The fuel `data.length - i` strictly
dominates the loop's trip count (each iteration advances `i` by at least
one while the loop stops at `data.length - 20`), so the fuel never runs
out and the recursion is exactly the source's `for` loop. -/
def backtestLoop (data : List Candle) (options : Options) (i : ℕ)
    (acc : List Trade) : List Trade :=
  backtestLoopAux data options (data.length - i) i acc

/-- The aggregate statistics of a completed backtest. -/
structure BacktestStats where
  totalTrades : ℕ
  winningTrades : ℕ
  losingTrades : ℕ
  winRate : ℚ
  averageProfit : ℚ
  averageLoss : ℚ
  profitFactor : ℚ
  expectancy : Option ℚ
  trades : List Trade
deriving DecidableEq

/-- A backtest either fails its precondition with an `{error}` object
carrying only a message, or returns the full statistics object; the two
are distinct constructors, so an error result carries no trades. -/
inductive BacktestResult where
  | error (message : String)
  | ok (stats : BacktestStats)
deriving DecidableEq

/-- Build the statistics object from the recorded trades, as in the tail
of `backtestBreakoutStrategy` (the per-loop accumulators `totalProfit`
and `totalLoss` are recovered from the recorded trades). -/
def mkBacktestStats (trades : List Trade) : BacktestStats :=
  let totalTrades := trades.length
  let winners := trades.filter fun t => decide (0 < t.pnl)
  let losers := trades.filter fun t => !decide (0 < t.pnl)
  let totalProfit := (winners.map Trade.pnl).sum
  let totalLoss := (losers.map fun t => |t.pnl|).sum
  if 0 < totalTrades then
    let winRate := (winners.length : ℚ) / totalTrades * 100
    let averageProfit := if 0 < winners.length then totalProfit / winners.length else 0
    let averageLoss := if 0 < losers.length then totalLoss / losers.length else 0
    let profitFactor := if 0 < averageLoss then averageProfit / averageLoss else 0
    { totalTrades
      winningTrades := winners.length
      losingTrades := losers.length
      winRate
      averageProfit
      averageLoss
      profitFactor
      expectancy := some (winRate / 100 * averageProfit - (100 - winRate) / 100 * averageLoss)
      trades }
  else
    { totalTrades
      winningTrades := winners.length
      losingTrades := losers.length
      winRate := 0
      averageProfit := 0
      averageLoss := 0
      profitFactor := 0
      expectancy := none
      trades }

/-- Source `backtestBreakoutStrategy(historicalData, options)`: explicit error
object under 250 candles, otherwise the walk from bar 200. -/
def backtestBreakoutStrategy (historicalData : List Candle) (options : Options) :
    BacktestResult :=
  if historicalData.length < 250 then
    .error ("Not enough historical data for backtest")
  else
    .ok (mkBacktestStats (backtestLoop historicalData options 200 []))

/-- The recorded trade list of a backtest result (empty on an error
result, which carries none). -/
def tradesOf : BacktestResult → List Trade
  | .error _ => []
  | .ok stats => stats.trades

/-! ## Signal generator (`signalGenerator.js`) -/

/-- The merged signal-generator configuration (all defaults applied). -/
structure SGConfig where
  consolidationPeriod : ℚ
  consolidationThreshold : ℚ
  rsiLowerThreshold : ℚ
  rsiUpperThreshold : ℚ
  volumeIncreaseThreshold : ℚ
  minBreakoutPercent : ℚ
  maxBreakoutPercent : ℚ
  minMTFScore : ℚ
  minAlignmentScore : ℚ
  minDailyScore : ℚ
  requireEma200 : Bool
  maxPrice : ℚ
  riskReward : ℚ
  maxStopLossPercent : ℚ
  minProfitPotential : String
deriving DecidableEq

/-- The default-merging block at the top of `generateBreakoutSignal`
(`riskReward` is the source's `riskRewardRatio`, carried but never used
downstream). -/
def mkSGConfig (options : Options) : SGConfig :=
  { consolidationPeriod := jsOrD options.consolidationPeriod 6
    consolidationThreshold := jsOrD options.consolidationThreshold 0.15
    rsiLowerThreshold := jsOrD options.rsiLowerThreshold 50
    rsiUpperThreshold := jsOrD options.rsiUpperThreshold 75
    volumeIncreaseThreshold := jsOrD options.volumeIncreaseThreshold 0.10
    minBreakoutPercent := jsOrD options.minBreakoutPercent 0.01
    maxBreakoutPercent := jsOrD options.maxBreakoutPercent 0.20
    minMTFScore := jsOrD options.minMTFScore 75
    minAlignmentScore := jsOrD options.minAlignmentScore 4
    minDailyScore := jsOrD options.minDailyScore 65
    requireEma200 := options.requireEma200.getD true
    maxPrice := jsOrD options.maxPrice 1.0
    riskReward := jsOrD options.riskReward 3.0
    maxStopLossPercent := jsOrD options.maxStopLossPercent 5
    minProfitPotential := jsOrStr (options.minProfitPotential.getD ("")) "Medium" }

/-- The input bundle of `generateBreakoutSignal`; a `none` timeframe
models an absent (JS falsy `undefined`) property.  An empty array is
truthy in JS and therefore modelled as `some []`. -/
structure CoinData where
  hourlyData : Option (List Candle)
  fourHourData : Option (List Candle)
  dailyData : Option (List Candle)
  symbol : String
  exchange : Option String
deriving DecidableEq

/-- The emitted trading signal (the two wall-clock fields `generatedAt`
and `expiresAt` of the source are real-time values and are not part of
the embedding). -/
structure Signal where
  symbol : String
  exchange : String
  signalType : String
  direction : String
  confidence : ℚ
  entryPrice : ℚ
  stopLoss : Option ℚ
  takeProfit : Option ℚ
  riskReward : Option ℚ
  potentialProfitPercent : Option ℚ
  potentialLossPercent : Option ℚ
  timeframe : String
  mtfScore : ℚ
  alignmentScore : ℕ
  hourlyScore : ℚ
  fourHourScore : ℚ
  dailyScore : ℚ
  signals : List String
  profitPotential : String
  riskLevel : String
  successProbability : ℚ
deriving DecidableEq

/-- Source `generateBreakoutSignal` either rejects with a reason message or
emits a signal. -/
inductive GenResult where
  | failure (message : String)
  | success (signal : Signal)
deriving DecidableEq

/-- Source `calculateConfidenceScore(mtfAnalysis)`: `mtfScore/10` plus alignment
and profit-potential bonuses, rounded to one decimal, capped at 10. -/
def calculateConfidenceScore (mtf : MTFResult) : ℚ :=
  let base := mtf.mtfScore / 10
  let withAlignment := base +
    (if 6 ≤ mtf.alignmentScore then 1 else if 4 ≤ mtf.alignmentScore then 1/2 else 0)
  let score := withAlignment +
    (if mtf.profitPotential = "Very High" then 1
     else if mtf.profitPotential = "High" then 1/2 else 0)
  min 10 ((jsRound (score * 10) : ℚ) / 10)

/-- Source `estimateSuccessProbability(mtfScore, alignmentScore,
profitPotential, stopLossPercent)`: `mtfScore * 0.8` plus bonuses, minus
stop-width penalties, clamped into `[60, 95]`.  A `none`
`stopLossPercent` models the JS `NaN` arising from an undefined stop
(both penalty comparisons false). -/
def estimateSuccessProbability (mtfScore : ℚ) (alignmentScore : ℕ)
    (profitPotential : String) (stopLossPercent : Option ℚ) : ℚ :=
  let p1 := mtfScore * 0.8
  let p2 := p1 + (if 6 ≤ alignmentScore then 10 else if 4 ≤ alignmentScore then 5 else 0)
  let p3 := p2 +
    (if profitPotential = "Very High" then 5
     else if profitPotential = "High" then 3
     else if profitPotential = "Medium" then 1 else 0)
  let p4 := p3 +
    (match stopLossPercent with
     | some v => if v < 2 then -5 else if 4 < v then -3 else 0
     | none => 0)
  min 95 (max 60 ((jsRound p4 : ℚ)))

/-- The analyzer options that the signal generator forwards to
`multiTimeframeAnalysis` (the object literal of the source call site). -/
def sgOptions (config : SGConfig) : Options :=
  { consolidationPeriod := some config.consolidationPeriod
    consolidationThreshold := some config.consolidationThreshold
    rsiLowerThreshold := some config.rsiLowerThreshold
    rsiUpperThreshold := some config.rsiUpperThreshold
    volumeIncreaseThreshold := some config.volumeIncreaseThreshold
    minBreakoutPercent := some config.minBreakoutPercent
    maxBreakoutPercent := some config.maxBreakoutPercent
    ema200Required := some config.requireEma200 }

/-- The body of `generateBreakoutSignal` after its default-merging block
(the source computes `config` once at the top and the rest of the
function reads only `config`): the gate sequence, then the assembled
signal. -/
def generateBreakoutSignalCore (coinData : CoinData) (config : SGConfig) : GenResult :=
  match coinData.hourlyData, coinData.fourHourData, coinData.dailyData with
  | some hourlyData, some fourHourData, some dailyData =>
    let currentPrice := (hourlyData.getD (hourlyData.length - 1) defCandle).close
    if config.maxPrice < currentPrice then .failure ("Price above maximum threshold")
    else
      let mtfAnalysis := multiTimeframeAnalysis hourlyData fourHourData dailyData
        { consolidationPeriod := some config.consolidationPeriod
          consolidationThreshold := some config.consolidationThreshold
          rsiLowerThreshold := some config.rsiLowerThreshold
          rsiUpperThreshold := some config.rsiUpperThreshold
          volumeIncreaseThreshold := some config.volumeIncreaseThreshold
          minBreakoutPercent := some config.minBreakoutPercent
          maxBreakoutPercent := some config.maxBreakoutPercent
          ema200Required := some config.requireEma200 }
      let isValidSignal :=
        decide (config.minMTFScore ≤ mtfAnalysis.mtfScore) &&
        decide (config.minAlignmentScore ≤ (mtfAnalysis.alignmentScore : ℚ)) &&
        decide (config.minDailyScore ≤ mtfAnalysis.dailyScore) &&
        (mtfAnalysis.profitPotential == "High" ||
         mtfAnalysis.profitPotential == "Very High" ||
         (mtfAnalysis.profitPotential == "Medium" && decide ((85 : ℚ) < mtfAnalysis.mtfScore)))
      if !isValidSignal then .failure ("Does not meet signal criteria")
      else
        let stopLoss := mtfAnalysis.suggestedStopLoss
        let takeProfit := mtfAnalysis.suggestedTakeProfit
        let stopLossPercent := stopLoss.map fun s => (currentPrice - s) / currentPrice * 100
        if (match stopLossPercent with
            | some v => decide (config.maxStopLossPercent < v)
            | none => false) then
          .failure ("Stop loss percentage too high")
        else
          let recentDailyData := dailyData.drop (dailyData.length - 20)
          let twentyDayHigh := listMax (recentDailyData.map Candle.high)
          let twentyDayLow := listMin (recentDailyData.map Candle.low)
          let percentFromHigh := (twentyDayHigh - currentPrice) / currentPrice * 100
          if percentFromHigh < 3 then .failure ("Price too close to 20-day high")
          else
            let priceRange := twentyDayHigh - twentyDayLow
            -- JS `range / 0` is `±Infinity` (or `NaN` when the range is
            -- also 0): the volatility gate then fires exactly when the
            -- range is positive
            let volTooHigh :=
              if twentyDayLow = 0 then decide (0 < priceRange)
              else decide ((0.5 : ℚ) < priceRange / twentyDayLow)
            if volTooHigh then .failure ("Coin volatility too high")
            else
              .success
                { symbol := coinData.symbol
                  exchange := coinData.exchange.getD ("ByDFi")
                  signalType := "Breakout"
                  direction := "Long"
                  confidence := calculateConfidenceScore mtfAnalysis
                  entryPrice := currentPrice
                  stopLoss
                  takeProfit
                  riskReward :=
                    match stopLoss, takeProfit with
                    | some s, some t => some ((t - currentPrice) / (currentPrice - s))
                    | _, _ => none
                  potentialProfitPercent :=
                    takeProfit.map fun t => (t - currentPrice) / currentPrice * 100
                  potentialLossPercent := stopLossPercent
                  timeframe := "Multi-Timeframe"
                  mtfScore := mtfAnalysis.mtfScore
                  alignmentScore := mtfAnalysis.alignmentScore
                  hourlyScore := mtfAnalysis.hourlyScore
                  fourHourScore := mtfAnalysis.fourHourScore
                  dailyScore := mtfAnalysis.dailyScore
                  signals := mtfAnalysis.combinedSignals
                  profitPotential := mtfAnalysis.profitPotential
                  riskLevel := mtfAnalysis.riskLevel
                  successProbability := estimateSuccessProbability mtfAnalysis.mtfScore
                    mtfAnalysis.alignmentScore mtfAnalysis.profitPotential stopLossPercent }
  | _, _, _ => .failure ("Missing required timeframe data")

/-- Source `generateBreakoutSignal(coinData, options)`: merge the defaults and
run the gate sequence. -/
def generateBreakoutSignal (coinData : CoinData) (options : Options) : GenResult :=
  generateBreakoutSignalCore coinData (mkSGConfig options)

/-! ## Parameter optimizer (`optimizeParameters`) -/

/-- The nine numeric fields the optimizer perturbs. -/
structure OptimParams where
  consolidationPeriod : ℚ
  consolidationThreshold : ℚ
  rsiLowerThreshold : ℚ
  rsiUpperThreshold : ℚ
  volumeIncreaseThreshold : ℚ
  minBreakoutPercent : ℚ
  maxBreakoutPercent : ℚ
  riskReward : ℚ
  maxStopLossPercent : ℚ
deriving DecidableEq

/-- The parameter object passed to the backtester: exactly the nine
optimizer fields are present, everything else is absent. -/
def paramsToOptions (p : OptimParams) : Options :=
  { consolidationPeriod := some p.consolidationPeriod
    consolidationThreshold := some p.consolidationThreshold
    rsiLowerThreshold := some p.rsiLowerThreshold
    rsiUpperThreshold := some p.rsiUpperThreshold
    volumeIncreaseThreshold := some p.volumeIncreaseThreshold
    minBreakoutPercent := some p.minBreakoutPercent
    maxBreakoutPercent := some p.maxBreakoutPercent
    riskReward := some p.riskReward
    maxStopLossPercent := some p.maxStopLossPercent }

/-- The default-merged starting parameter set of `optimizeParameters`. -/
def mergeInitialParams (initialParams : Options) : OptimParams :=
  { consolidationPeriod := jsOrD initialParams.consolidationPeriod 6
    consolidationThreshold := jsOrD initialParams.consolidationThreshold 0.15
    rsiLowerThreshold := jsOrD initialParams.rsiLowerThreshold 50
    rsiUpperThreshold := jsOrD initialParams.rsiUpperThreshold 75
    volumeIncreaseThreshold := jsOrD initialParams.volumeIncreaseThreshold 0.10
    minBreakoutPercent := jsOrD initialParams.minBreakoutPercent 0.01
    maxBreakoutPercent := jsOrD initialParams.maxBreakoutPercent 0.20
    riskReward := jsOrD initialParams.riskReward 3.0
    maxStopLossPercent := jsOrD initialParams.maxStopLossPercent 5 }

/-- Source `evaluateParameters(historicalData, params)`: 0 on an errored
backtest or under 10 trades, else the weighted win-rate / profit-factor
/ trade-count score. -/
def evaluateParameters (historicalData : List Candle) (params : OptimParams) : ℚ :=
  match backtestBreakoutStrategy historicalData (paramsToOptions params) with
  | .error _ => 0
  | .ok backtest =>
    if backtest.totalTrades < 10 then 0
    else
      backtest.winRate * 0.6 + min (backtest.profitFactor * 10) 30 +
        (min (backtest.totalTrades : ℚ) 100) / 10

/-- Source `calculateWinRate(historicalData, params)`. -/
def calculateWinRate (historicalData : List Candle) (params : OptimParams) : ℚ :=
  match backtestBreakoutStrategy historicalData (paramsToOptions params) with
  | .error _ => 0
  | .ok backtest => if backtest.totalTrades = 0 then 0 else backtest.winRate

/-- Source `randomAdjust(value, amount, min, max)` for one uniform draw
`r ∈ [0,1]`: move by `(2r - 1) * amount` and clamp into `[lo, hi]`. -/
def randomAdjust (value amount lo hi : ℚ) (r : ℚ) : ℚ :=
  max lo (min hi (value + (r * 2 - 1) * amount))

/-- Source `generateParameterVariations(baseParams)`: ten candidates, each field
perturbed by its own draw (`rand` supplies the stream of `Math.random()`
values, nine per candidate, in field order). -/
def generateParameterVariations (baseParams : OptimParams) (rand : ℕ → ℚ) :
    List OptimParams :=
  (List.range 10).map fun i =>
    { consolidationPeriod := randomAdjust baseParams.consolidationPeriod 1 4 10 (rand (9*i))
      consolidationThreshold :=
        randomAdjust baseParams.consolidationThreshold 0.05 0.05 0.30 (rand (9*i+1))
      rsiLowerThreshold := randomAdjust baseParams.rsiLowerThreshold 5 40 60 (rand (9*i+2))
      rsiUpperThreshold := randomAdjust baseParams.rsiUpperThreshold 5 70 85 (rand (9*i+3))
      volumeIncreaseThreshold :=
        randomAdjust baseParams.volumeIncreaseThreshold 0.05 0.05 0.30 (rand (9*i+4))
      minBreakoutPercent :=
        randomAdjust baseParams.minBreakoutPercent 0.005 0.005 0.05 (rand (9*i+5))
      maxBreakoutPercent :=
        randomAdjust baseParams.maxBreakoutPercent 0.05 0.10 0.40 (rand (9*i+6))
      riskReward := randomAdjust baseParams.riskReward 0.5 2.0 5.0 (rand (9*i+7))
      maxStopLossPercent := randomAdjust baseParams.maxStopLossPercent 1 3 8 (rand (9*i+8)) }

/-- The result triple of `optimizeParameters`. -/
structure OptimizeResult where
  parameters : OptimParams
  score : ℚ
  winRate : ℚ
deriving DecidableEq

/-- The comparison step of the optimizer: keep a candidate only on a
strict score improvement, carrying its score alongside. -/
def bestStep (historicalData : List Candle) (b : OptimParams × ℚ)
    (params : OptimParams) : OptimParams × ℚ :=
  let score := evaluateParameters historicalData params
  if b.2 < score then (params, score) else b

/-- One generation: evaluate the ten perturbations of the current best
and keep any strict improvement. -/
def optimizeGeneration (historicalData : List Candle) (best : OptimParams × ℚ)
    (rand : ℕ → ℚ) : OptimParams × ℚ :=
  (generateParameterVariations best.1 rand).foldl (bestStep historicalData) best

/-- Source `optimizeParameters(historicalData, initialParams, generations)`:
hill-climbing from the default-merged start; `rand g` is the draw stream
of generation `g`. -/
def optimizeParameters (historicalData : List Candle) (initialParams : Options)
    (generations : ℕ) (rand : ℕ → ℕ → ℚ) : OptimizeResult :=
  let bestParams := mergeInitialParams initialParams
  let bestScore := evaluateParameters historicalData bestParams
  let best := (List.range generations).foldl
    (fun b g => optimizeGeneration historicalData b (rand g)) (bestParams, bestScore)
  { parameters := best.1
    score := best.2
    winRate := calculateWinRate historicalData best.1 }

/-! ## Concrete evaluation inputs

A flat 20-bar series followed by a single volume-and-price spike bar.
On this series, with a wide RSI band and the EMA200 check waived, the
analyzer fires consolidation, RSI range, both Bollinger conditions,
volume increase, OBV accumulation and the breakout-percentage band, for
a capped score of 100 — a breakout candidate with ATR 20 at close 105,
hence stop 85 and target 165. -/

/-- A flat candle: close 100, high 110, low 90, volume 100. -/
def flatCandle : Candle := ⟨0, 100, 110, 90, 100, 100⟩

/-- The spike candle: close 105, high 115, low 95, volume 200. -/
def spikeCandle : Candle := ⟨0, 100, 115, 95, 105, 200⟩

/-- 20 flat bars and a spike: a breakout candidate under `detectorOpts`. -/
def spikeSeries : List Candle := List.replicate 20 flatCandle ++ [spikeCandle]

/-- Two flat bars: far too short for any condition except the waived
EMA200 check; never a candidate. -/
def tinySeries : List Candle := List.replicate 2 flatCandle

/-- Analyzer options: wide RSI band, EMA200 check waived. -/
def detectorOpts : Options :=
  { rsiLowerThreshold := some 1, rsiUpperThreshold := some 100, ema200Required := some false }

/-- Signal-generator options: as `detectorOpts` (via the `requireEma200`
name of that layer) with the price cap and stop-width cap widened. -/
def signalOpts : Options :=
  { rsiLowerThreshold := some 1, rsiUpperThreshold := some 100, requireEma200 := some false,
    maxPrice := some 1000, maxStopLossPercent := some 100 }

/-- The spike series on all three timeframes. -/
def spikeCoin : CoinData :=
  ⟨some spikeSeries, some spikeSeries, some spikeSeries, "TEST", none⟩

/-- The signal emitted for `spikeCoin` under `signalOpts`: score 100 on
each timeframe, alignment 6, confidence capped at 10, success
probability `min(95, round(80 + 10 + 5) - 3) = 92` (the stop width
`400/21 ≈ 19%` exceeds 4), stop 85 and target 165 from ATR 20. -/
def spikeSignal : Signal :=
  { symbol := "TEST"
    exchange := "ByDFi"
    signalType := "Breakout"
    direction := "Long"
    confidence := 10
    entryPrice := 105
    stopLoss := some 85
    takeProfit := some 165
    riskReward := some 3
    potentialProfitPercent := some (400/7)
    potentialLossPercent := some (400/21)
    timeframe := "Multi-Timeframe"
    mtfScore := 100
    alignmentScore := 6
    hourlyScore := 100
    fourHourScore := 100
    dailyScore := 100
    signals :=
      ["1H: Price consolidation detected", "1H: RSI in optimal range",
       "1H: Bollinger Band compression", "1H: Bollinger Band breakout",
       "1H: Volume increasing", "1H: OBV accumulation", "1H: Ideal breakout percentage",
       "4H: Price consolidation detected", "4H: RSI in optimal range",
       "4H: Bollinger Band compression", "4H: Bollinger Band breakout",
       "4H: Volume increasing", "4H: OBV accumulation", "4H: Ideal breakout percentage",
       "1D: Price consolidation detected", "1D: RSI in optimal range",
       "1D: Bollinger Band compression", "1D: Bollinger Band breakout",
       "1D: Volume increasing", "1D: OBV accumulation", "1D: Ideal breakout percentage"]
    profitPotential := "Very High"
    riskLevel := "Very High"
    successProbability := 92 }

/-- A base parameter set whose `consolidationPeriod` sits at the upper
end of the range the spec's section 6 table advertises. -/
def basePar20 : OptimParams :=
  { consolidationPeriod := 20
    consolidationThreshold := 0.15
    rsiLowerThreshold := 50
    rsiUpperThreshold := 75
    volumeIncreaseThreshold := 0.10
    minBreakoutPercent := 0.01
    maxBreakoutPercent := 0.20
    riskReward := 3.0
    maxStopLossPercent := 5 }

/-- The deterministic draw stream `r = 1/2` (zero perturbation). -/
def halfRand : ℕ → ℚ := fun _ => 1/2

/-- The `i`-th candidate of one perturbation round. -/
def nthVariation (baseParams : OptimParams) (rand : ℕ → ℚ) (i : ℕ) : OptimParams :=
  (generateParameterVariations baseParams rand).getD i baseParams

/-- Modelled from the spec: the section 6 table row
`consolidationPeriod=6 [3,20]` prescribes the perturbation clamp
`max(3, min(20, value + delta))` for this field. -/
def specConsolidationClamp (value r : ℚ) : ℚ :=
  max 3 (min 20 (value + (r * 2 - 1) * 1))

/-- A constant all-`c` candle with zero volume (high = low = close = c). -/
def constCandle (c : ℚ) : Candle := ⟨0, c, c, c, c, 0⟩

/-- The empty option bag: every field takes its documented default. -/
def defaultOptions : Options := {}

/-- A nine-point price list (length `4 + 5`, for warm-up evaluations at
period 4). -/
def nineList : List ℚ := [1, 2, 3, 4, 5, 6, 7, 8, 9]

/-- A sixteen-point price list with one early loss (its first change is
negative, so the RSI average loss never hits the `0.001` floor). -/
def lossyList : List ℚ := [3, 1, 2, 3, 4, 5, 6, 7, 8, 9, 10, 11, 12, 13, 14, 15]

/-! ## Theorems -/

/-- The `i`-th element of a mapped range. -/
theorem getD_range_map (f : ℕ → α) (n i : ℕ) (d : α) (h : i < n) :
    ((List.range n).map f).getD i d = f i := by
  rw [List.getD_eq_getElem?_getD, List.getElem?_map, List.getElem?_range h]
  rfl

/-- C4.  For every input of fewer than 250 candles and every config,
`backtestBreakoutStrategy` returns the explicit error result — a
constructor distinct from the statistics constructor that carries the
trades, so it is distinguishable from a valid zero-trade result — and,
being a total function, never throws. -/
theorem backtest_short_input_errors (historicalData : List Candle) (options : Options)
    (h : historicalData.length < 250) :
    backtestBreakoutStrategy historicalData options =
      .error ("Not enough historical data for backtest") := by
  unfold backtestBreakoutStrategy
  rw [if_pos h]

/-- Witness for C4: the empty candle list. -/
theorem backtest_short_input_errors_witness :
    ([] : List Candle).length < 250 ∧
      backtestBreakoutStrategy [] detectorOpts =
        .error ("Not enough historical data for backtest") :=
  ⟨by decide, backtest_short_input_errors [] detectorOpts (by decide)⟩

/-- C3 (counterexample).  The claim says each of the four carried fields
falls back daily → four-hour → hourly, whichever is non-null first.  On
`tinySeries`/`tinySeries`/`spikeSeries` the daily analysis produces the
non-null stop `85`, so the claimed rule yields `some 85`; the code
returns `none` because `suggestedStopLoss` is actually taken from the
four-hour result falling back to the hourly result, both null here. -/
theorem mtf_fallback_counterexample :
    (analyzeBreakout spikeSeries detectorOpts).suggestedStopLoss = some 85 ∧
      (multiTimeframeAnalysis tinySeries tinySeries spikeSeries
        detectorOpts).suggestedStopLoss = none :=
  ⟨by decide, by decide⟩

/-- C3 (amended).  `profitPotential` and `riskLevel` are the daily
analysis value falling back to the four-hour value only (never the
hourly one), while `suggestedStopLoss` and `suggestedTakeProfit` are the
four-hour value falling back to the hourly one only (the daily value is
never consulted); each fallback fires on the JS-falsy values (absent,
`0`, empty string), not merely on null. -/
theorem mtf_fallback_sources (hourlyData fourHourData dailyData : List Candle)
    (options : Options) :
    (multiTimeframeAnalysis hourlyData fourHourData dailyData options).profitPotential =
      jsOrStr (analyzeBreakout dailyData options).profitPotential
        (analyzeBreakout fourHourData options).profitPotential ∧
    (multiTimeframeAnalysis hourlyData fourHourData dailyData options).riskLevel =
      jsOrStr (analyzeBreakout dailyData options).riskLevel
        (analyzeBreakout fourHourData options).riskLevel ∧
    (multiTimeframeAnalysis hourlyData fourHourData dailyData options).suggestedStopLoss =
      jsOrNum (analyzeBreakout fourHourData options).suggestedStopLoss
        (analyzeBreakout hourlyData options).suggestedStopLoss ∧
    (multiTimeframeAnalysis hourlyData fourHourData dailyData options).suggestedTakeProfit =
      jsOrNum (analyzeBreakout fourHourData options).suggestedTakeProfit
        (analyzeBreakout hourlyData options).suggestedTakeProfit :=
  ⟨rfl, rfl, rfl, rfl⟩

/-- C6 (counterexample).  The claim says every candidate clamps
`consolidationPeriod` into the spec's `[3, 20]`; with base value 20 and
a zero-delta draw the spec formula keeps 20, but the code clamps into
`[4, 10]` and produces 10. -/
theorem variations_clamp_counterexample :
    (nthVariation basePar20 halfRand 0).consolidationPeriod = 10 ∧
      specConsolidationClamp basePar20.consolidationPeriod (halfRand 0) = 20 :=
  ⟨by decide, by decide⟩

/-- C6 (amended).  Every candidate of the perturbation step clamps each
numeric field to `max(lo, min(hi, base + (2r-1)·amount))`, with
`[lo, hi]` equal to the section 6 table's bracketed range for eight of
the nine fields — but `consolidationPeriod` is clamped to `[4, 10]`, not
the `[3, 20]` of the table. -/
theorem variations_clamp_bounds (baseParams : OptimParams) (rand : ℕ → ℚ) (i : ℕ)
    (h : i < 10) :
    (nthVariation baseParams rand i).consolidationPeriod =
      max 4 (min 10 (baseParams.consolidationPeriod + (rand (9*i) * 2 - 1) * 1)) ∧
    (nthVariation baseParams rand i).consolidationThreshold =
      max 0.05 (min 0.30 (baseParams.consolidationThreshold + (rand (9*i+1) * 2 - 1) * 0.05)) ∧
    (nthVariation baseParams rand i).rsiLowerThreshold =
      max 40 (min 60 (baseParams.rsiLowerThreshold + (rand (9*i+2) * 2 - 1) * 5)) ∧
    (nthVariation baseParams rand i).rsiUpperThreshold =
      max 70 (min 85 (baseParams.rsiUpperThreshold + (rand (9*i+3) * 2 - 1) * 5)) ∧
    (nthVariation baseParams rand i).volumeIncreaseThreshold =
      max 0.05 (min 0.30 (baseParams.volumeIncreaseThreshold + (rand (9*i+4) * 2 - 1) * 0.05)) ∧
    (nthVariation baseParams rand i).minBreakoutPercent =
      max 0.005 (min 0.05 (baseParams.minBreakoutPercent + (rand (9*i+5) * 2 - 1) * 0.005)) ∧
    (nthVariation baseParams rand i).maxBreakoutPercent =
      max 0.10 (min 0.40 (baseParams.maxBreakoutPercent + (rand (9*i+6) * 2 - 1) * 0.05)) ∧
    (nthVariation baseParams rand i).riskReward =
      max 2.0 (min 5.0 (baseParams.riskReward + (rand (9*i+7) * 2 - 1) * 0.5)) ∧
    (nthVariation baseParams rand i).maxStopLossPercent =
      max 3 (min 8 (baseParams.maxStopLossPercent + (rand (9*i+8) * 2 - 1) * 1)) := by
  unfold nthVariation generateParameterVariations
  rw [getD_range_map _ _ _ _ h]
  exact ⟨rfl, rfl, rfl, rfl, rfl, rfl, rfl, rfl, rfl⟩

/-- Witness for C6 (amended), at candidate 0 of `basePar20` with the
zero-delta draw stream. -/
theorem variations_clamp_bounds_witness :
    0 < 10 ∧
    ((nthVariation basePar20 halfRand 0).consolidationPeriod =
      max 4 (min 10 (basePar20.consolidationPeriod + (halfRand (9*0) * 2 - 1) * 1)) ∧
    (nthVariation basePar20 halfRand 0).consolidationThreshold =
      max 0.05 (min 0.30 (basePar20.consolidationThreshold + (halfRand (9*0+1) * 2 - 1) * 0.05)) ∧
    (nthVariation basePar20 halfRand 0).rsiLowerThreshold =
      max 40 (min 60 (basePar20.rsiLowerThreshold + (halfRand (9*0+2) * 2 - 1) * 5)) ∧
    (nthVariation basePar20 halfRand 0).rsiUpperThreshold =
      max 70 (min 85 (basePar20.rsiUpperThreshold + (halfRand (9*0+3) * 2 - 1) * 5)) ∧
    (nthVariation basePar20 halfRand 0).volumeIncreaseThreshold =
      max 0.05 (min 0.30 (basePar20.volumeIncreaseThreshold + (halfRand (9*0+4) * 2 - 1) * 0.05)) ∧
    (nthVariation basePar20 halfRand 0).minBreakoutPercent =
      max 0.005 (min 0.05 (basePar20.minBreakoutPercent + (halfRand (9*0+5) * 2 - 1) * 0.005)) ∧
    (nthVariation basePar20 halfRand 0).maxBreakoutPercent =
      max 0.10 (min 0.40 (basePar20.maxBreakoutPercent + (halfRand (9*0+6) * 2 - 1) * 0.05)) ∧
    (nthVariation basePar20 halfRand 0).riskReward =
      max 2.0 (min 5.0 (basePar20.riskReward + (halfRand (9*0+7) * 2 - 1) * 0.5)) ∧
    (nthVariation basePar20 halfRand 0).maxStopLossPercent =
      max 3 (min 8 (basePar20.maxStopLossPercent + (halfRand (9*0+8) * 2 - 1) * 1))) :=
  ⟨by decide, variations_clamp_bounds basePar20 halfRand 0 (by decide)⟩

/-- C9.  Every numeric option of `generateBreakoutSignal` is
default-merged with `||`, so an explicit `0` is falsy and silently
replaced by the documented default: setting any one of the thirteen
numeric fields to `0` behaves exactly as omitting it.  In particular
`maxPrice: 0` does not reject every coin — the merged threshold is the
default `1.0`. -/
theorem zero_option_behaves_as_omitted (coinData : CoinData) (options : Options) :
    (generateBreakoutSignal coinData { options with consolidationPeriod := some 0 } =
      generateBreakoutSignal coinData { options with consolidationPeriod := none }) ∧
    (generateBreakoutSignal coinData { options with consolidationThreshold := some 0 } =
      generateBreakoutSignal coinData { options with consolidationThreshold := none }) ∧
    (generateBreakoutSignal coinData { options with rsiLowerThreshold := some 0 } =
      generateBreakoutSignal coinData { options with rsiLowerThreshold := none }) ∧
    (generateBreakoutSignal coinData { options with rsiUpperThreshold := some 0 } =
      generateBreakoutSignal coinData { options with rsiUpperThreshold := none }) ∧
    (generateBreakoutSignal coinData { options with volumeIncreaseThreshold := some 0 } =
      generateBreakoutSignal coinData { options with volumeIncreaseThreshold := none }) ∧
    (generateBreakoutSignal coinData { options with minBreakoutPercent := some 0 } =
      generateBreakoutSignal coinData { options with minBreakoutPercent := none }) ∧
    (generateBreakoutSignal coinData { options with maxBreakoutPercent := some 0 } =
      generateBreakoutSignal coinData { options with maxBreakoutPercent := none }) ∧
    (generateBreakoutSignal coinData { options with minMTFScore := some 0 } =
      generateBreakoutSignal coinData { options with minMTFScore := none }) ∧
    (generateBreakoutSignal coinData { options with minAlignmentScore := some 0 } =
      generateBreakoutSignal coinData { options with minAlignmentScore := none }) ∧
    (generateBreakoutSignal coinData { options with minDailyScore := some 0 } =
      generateBreakoutSignal coinData { options with minDailyScore := none }) ∧
    (generateBreakoutSignal coinData { options with maxPrice := some 0 } =
      generateBreakoutSignal coinData { options with maxPrice := none }) ∧
    (generateBreakoutSignal coinData { options with riskReward := some 0 } =
      generateBreakoutSignal coinData { options with riskReward := none }) ∧
    (generateBreakoutSignal coinData { options with maxStopLossPercent := some 0 } =
      generateBreakoutSignal coinData { options with maxStopLossPercent := none }) ∧
    (mkSGConfig { options with maxPrice := some 0 }).maxPrice = 1 := by
  refine ⟨?_, ?_, ?_, ?_, ?_, ?_, ?_, ?_, ?_, ?_, ?_, ?_, ?_, ?_⟩ <;>
    first
      | exact congrArg (generateBreakoutSignalCore coinData) (by simp [mkSGConfig, jsOrD])
      | norm_num [mkSGConfig, jsOrD]

/-- The optimizer's inner fold keeps the invariant "the carried score is
the carried parameters' score" and never lowers the carried score. -/
theorem foldl_bestStep_pred (historicalData : List Candle) :
    ∀ (l : List OptimParams) (b : OptimParams × ℚ),
      b.2 = evaluateParameters historicalData b.1 →
      (l.foldl (bestStep historicalData) b).2 =
        evaluateParameters historicalData (l.foldl (bestStep historicalData) b).1 ∧
      b.2 ≤ (l.foldl (bestStep historicalData) b).2 := by
  intro l
  induction l with
  | nil => intro b hb; exact ⟨hb, le_refl _⟩
  | cons x xs ih =>
    intro b hb
    simp only [List.foldl_cons]
    have hstep : (bestStep historicalData b x).2 =
        evaluateParameters historicalData (bestStep historicalData b x).1 ∧
        b.2 ≤ (bestStep historicalData b x).2 := by
      have hb2 : bestStep historicalData b x =
          if b.2 < evaluateParameters historicalData x then
            (x, evaluateParameters historicalData x) else b := rfl
      rw [hb2]
      split
      · exact ⟨rfl, le_of_lt (by assumption)⟩
      · exact ⟨hb, le_refl _⟩
    obtain ⟨h1, h2⟩ := ih (bestStep historicalData b x) hstep.1
    exact ⟨h1, le_trans hstep.2 h2⟩

/-- The generation fold keeps the same invariant. -/
theorem foldl_generations_pred (historicalData : List Candle) (rand : ℕ → ℕ → ℚ) :
    ∀ (gs : List ℕ) (b : OptimParams × ℚ),
      b.2 = evaluateParameters historicalData b.1 →
      (gs.foldl (fun b g => optimizeGeneration historicalData b (rand g)) b).2 =
        evaluateParameters historicalData
          (gs.foldl (fun b g => optimizeGeneration historicalData b (rand g)) b).1 ∧
      b.2 ≤ (gs.foldl (fun b g => optimizeGeneration historicalData b (rand g)) b).2 := by
  intro gs
  induction gs with
  | nil => intro b hb; exact ⟨hb, le_refl _⟩
  | cons g gs ih =>
    intro b hb
    simp only [List.foldl_cons]
    have hstep := foldl_bestStep_pred historicalData
      (generateParameterVariations b.1 (rand g)) b hb
    obtain ⟨h1, h2⟩ := ih (optimizeGeneration historicalData b (rand g)) hstep.1
    exact ⟨h1, le_trans hstep.2 h2⟩

/-- C10.  For every history, initial parameter set, generation count and
draw stream, `optimizeParameters` returns a score that is exactly
`evaluateParameters` of the returned parameters — the returned
parameters are the candidate that achieved the returned score — and
that score is at least the score of the default-merged initial
parameter set. -/
theorem optimize_returns_best_candidate (historicalData : List Candle)
    (initialParams : Options) (generations : ℕ) (rand : ℕ → ℕ → ℚ) :
    (optimizeParameters historicalData initialParams generations rand).score =
      evaluateParameters historicalData
        (optimizeParameters historicalData initialParams generations rand).parameters ∧
    evaluateParameters historicalData (mergeInitialParams initialParams) ≤
      (optimizeParameters historicalData initialParams generations rand).score := by
  unfold optimizeParameters
  exact foldl_generations_pred historicalData rand (List.range generations)
    (mergeInitialParams initialParams,
      evaluateParameters historicalData (mergeInitialParams initialParams)) rfl

/-- Source `emaScan` emits one value per input. -/
theorem emaScan_length (m : ℚ) : ∀ (e : ℚ) (xs : List ℚ), (emaScan m e xs).length = xs.length
  | _, [] => rfl
  | e, x :: xs => by
    simp only [emaScan, List.length_cons]
    rw [emaScan_length m _ xs]

/-- Source `rsiScan` emits one value per input. -/
theorem rsiScan_length (p : ℚ) : ∀ (g l : ℚ) (xs : List ℚ),
    (rsiScan p g l xs).length = xs.length
  | _, _, [] => rfl
  | g, l, x :: xs => by
    simp only [rsiScan, List.length_cons]
    rw [rsiScan_length p _ _ xs]

/-- Source `atrScan` emits one value per input. -/
theorem atrScan_length (p : ℚ) : ∀ (a : ℚ) (xs : List ℚ), (atrScan p a xs).length = xs.length
  | _, [] => rfl
  | a, x :: xs => by
    simp only [atrScan, List.length_cons]
    rw [atrScan_length p _ xs]

/-- Source `zip3With` stops at the shortest input. -/
theorem zip3With_length (f : α → β → γ → δ) :
    ∀ (as : List α) (bs : List β) (cs : List γ),
      (zip3With f as bs cs).length = min as.length (min bs.length cs.length)
  | a :: as, b :: bs, c :: cs => by
    simp only [zip3With, List.length_cons]
    rw [zip3With_length f as bs cs]
    omega
  | [], _, _ => by simp [zip3With]
  | _ :: _, [], _ => by simp [zip3With]
  | _ :: _, _ :: _, [] => by simp [zip3With]

/-- Source `priceDiffs` has one entry per consecutive pair. -/
theorem priceDiffs_length (data : List ℚ) : (priceDiffs data).length = data.length - 1 := by
  simp only [priceDiffs, List.length_zipWith, List.length_tail]
  omega

/-- Source `calculateSMA` preserves the input length. -/
theorem calculateSMA_length (data : List ℚ) (period : ℕ) :
    (calculateSMA data period).length = data.length := by
  unfold calculateSMA
  split
  · simp
  · simp

/-- Source `calculateEMA` preserves the input length (for `period ≥ 1`). -/
theorem calculateEMA_length (data : List ℚ) (period : ℕ) (hp : 1 ≤ period) :
    (calculateEMA data period).length = data.length := by
  unfold calculateEMA
  split
  · simp
  · rename_i hlen
    simp only [List.length_append, List.length_replicate, List.length_cons,
      List.length_nil, List.length_map, emaScan_length, List.length_drop]
    omega

/-- Source `calculateRSI` preserves the input length. -/
theorem calculateRSI_length (data : List ℚ) (period : ℕ) :
    (calculateRSI data period).length = data.length := by
  unfold calculateRSI
  split
  · simp
  · rename_i hlen
    simp only [List.length_append, List.length_replicate, List.length_cons,
      List.length_nil, List.length_map, rsiScan_length, List.length_drop,
      priceDiffs_length]
    omega

/-- The true-range series of well-formed input has one entry per bar. -/
theorem trueRanges_length (highData lowData closeData : List ℚ)
    (h1 : highData.length = lowData.length) (h2 : lowData.length = closeData.length)
    (hn : 1 ≤ highData.length) :
    (trueRanges highData lowData closeData).length = highData.length := by
  simp only [trueRanges, List.length_cons, zip3With_length, List.length_tail]
  omega

/-- Source `calculateATR` preserves the input length on well-formed input whose
length is at least the period (or below two, where the guard returns the
all-null series); between those, the source returns `period` entries
regardless of the input length. -/
theorem calculateATR_length (highData lowData closeData : List ℚ) (period : ℕ)
    (hp : 1 ≤ period) (h1 : highData.length = lowData.length)
    (h2 : lowData.length = closeData.length)
    (hor : period ≤ highData.length ∨ highData.length < 2) :
    (calculateATR highData lowData closeData period).length = highData.length := by
  unfold calculateATR
  split
  · simp
  · rename_i hguard
    push_neg at hguard
    have htr : (trueRanges highData lowData closeData).length = highData.length :=
      trueRanges_length highData lowData closeData h1 h2 (by omega)
    dsimp only
    split
    · simp only [List.length_append, List.length_replicate, List.length_cons,
        List.length_nil, List.length_map, atrScan_length, List.length_drop, htr]
      rename_i hple
      rw [htr] at hple
      omega
    · rename_i hpgt
      rw [htr] at hpgt
      omega

/-- A replicated `none` passes the all-null test. -/
theorem replicate_none_all (n : ℕ) :
    (List.replicate n (none : Option ℚ)).all (fun x => x.isNone) = true := by
  rw [List.all_eq_true]
  intro x hx
  rw [List.eq_of_mem_replicate hx]
  rfl

/-- Any take of a replicated `none` passes the all-null test. -/
theorem take_replicate_none_all (n k : ℕ) :
    ((List.replicate n (none : Option ℚ)).take k).all (fun x => x.isNone) = true := by
  rw [List.all_eq_true]
  intro x hx
  rw [List.eq_of_mem_replicate (List.mem_of_mem_take hx)]
  rfl

/-- A `some` head followed by a mapped `some` tail passes the all-some
test. -/
theorem cons_some_map_some_all (a : ℚ) (l : List ℚ) :
    ([some a] ++ l.map some).all (fun x => x.isSome) = true := by
  rw [List.all_eq_true]
  intro x hx
  rcases List.mem_append.mp hx with h | h
  · rw [List.mem_singleton.mp h]
    rfl
  · obtain ⟨b, _, rfl⟩ := List.mem_map.mp h
    rfl

/-- Source `calculateSMA`: every entry before index `period - 1` is null. -/
theorem calculateSMA_warmup_none (data : List ℚ) (period : ℕ) :
    ((calculateSMA data period).take (period - 1)).all (fun x => x.isNone) = true := by
  unfold calculateSMA
  split
  · exact take_replicate_none_all _ _
  · rw [List.all_eq_true]
    intro x hx
    obtain ⟨j, hj, hjx⟩ := List.mem_iff_getElem.mp hx
    simp only [List.getElem_take, List.getElem_map, List.getElem_range] at hjx
    have hjlt : j < period - 1 := by
      simp only [List.length_take, List.length_map, List.length_range] at hj
      omega
    rw [if_pos hjlt] at hjx
    rw [← hjx]
    rfl

/-- Source `calculateSMA`: on input of length at least `period + 5`, every entry
from index `period - 1` on is non-null. -/
theorem calculateSMA_warmup_some (data : List ℚ) (period : ℕ)
    (h5 : period + 5 ≤ data.length) :
    ((calculateSMA data period).drop (period - 1)).all (fun x => x.isSome) = true := by
  unfold calculateSMA
  rw [if_neg (by omega)]
  rw [List.all_eq_true]
  intro x hx
  obtain ⟨j, hj, hjx⟩ := List.mem_iff_getElem.mp hx
  simp only [List.getElem_drop, List.getElem_map, List.getElem_range] at hjx
  rw [if_neg (by omega)] at hjx
  rw [← hjx]
  rfl

/-- Source `calculateEMA`: every entry before index `period - 1` is null. -/
theorem calculateEMA_warmup_none (data : List ℚ) (period : ℕ) :
    ((calculateEMA data period).take (period - 1)).all (fun x => x.isNone) = true := by
  unfold calculateEMA
  split
  · exact take_replicate_none_all _ _
  · rw [List.append_assoc, List.take_left' (by simp)]
    exact replicate_none_all _

/-- Source `calculateEMA`: on input of length at least `period + 5`, every entry
from index `period - 1` on is non-null. -/
theorem calculateEMA_warmup_some (data : List ℚ) (period : ℕ)
    (h5 : period + 5 ≤ data.length) :
    ((calculateEMA data period).drop (period - 1)).all (fun x => x.isSome) = true := by
  unfold calculateEMA
  rw [if_neg (by omega)]
  rw [List.append_assoc, List.drop_left' (by simp)]
  exact cons_some_map_some_all _ _

/-- Source `calculateRSI`: every entry before index `period` is null. -/
theorem calculateRSI_warmup_none (data : List ℚ) (period : ℕ) :
    ((calculateRSI data period).take period).all (fun x => x.isNone) = true := by
  unfold calculateRSI
  split
  · exact take_replicate_none_all _ _
  · rw [List.append_assoc, List.take_left' (by simp)]
    exact replicate_none_all _

/-- Source `calculateRSI`: on input of length at least `period + 5`, every entry
from index `period` on is non-null. -/
theorem calculateRSI_warmup_some (data : List ℚ) (period : ℕ)
    (h5 : period + 5 ≤ data.length) :
    ((calculateRSI data period).drop period).all (fun x => x.isSome) = true := by
  unfold calculateRSI
  rw [if_neg (by omega)]
  rw [List.append_assoc, List.drop_left' (by simp)]
  exact cons_some_map_some_all _ _

/-- Source `calculateATR`: every entry before index `period - 1` is null (in all
branches of the source). -/
theorem calculateATR_warmup_none (highData lowData closeData : List ℚ) (period : ℕ) :
    ((calculateATR highData lowData closeData period).take (period - 1)).all
      (fun x => x.isNone) = true := by
  unfold calculateATR
  split
  · exact take_replicate_none_all _ _
  · dsimp only
    split
    · rw [List.append_assoc, List.take_left' (by simp)]
      exact replicate_none_all _
    · exact take_replicate_none_all _ _

/-- Source `calculateATR`: on well-formed input of length at least `period + 5`,
every entry from index `period - 1` on is non-null. -/
theorem calculateATR_warmup_some (highData lowData closeData : List ℚ) (period : ℕ)
    (h1 : highData.length = lowData.length) (h2 : lowData.length = closeData.length)
    (h5 : period + 5 ≤ highData.length) :
    ((calculateATR highData lowData closeData period).drop (period - 1)).all
      (fun x => x.isSome) = true := by
  unfold calculateATR
  rw [if_neg (by omega)]
  have htr : (trueRanges highData lowData closeData).length = highData.length :=
    trueRanges_length highData lowData closeData h1 h2 (by omega)
  dsimp only
  rw [if_pos (by omega)]
  rw [List.append_assoc, List.drop_left' (by simp)]
  exact cons_some_map_some_all _ _


/-- C1 (counterexample).  The claim asserts (a) every index before
`period` is null and (b) the output has the input's length.  Both fail:
`calculateSMA([1..6], 2)` already holds `(1+2)/2` at index `1 < 2` (the
first value sits at `period - 1`, not `period`, for SMA/EMA/ATR), and
`calculateATR` on three well-formed bars with period 14 returns an array
of length 14, not 3 (its fewer-than-period branch emits `period`
nulls). -/
theorem indicator_warmup_counterexample :
    (calculateSMA [(1 : ℚ), 2, 3, 4, 5, 6] 2).getD 1 none = some (3/2) ∧
      (calculateATR [(1 : ℚ), 2, 3] [1, 2, 3] [1, 2, 3] 14).length = 14 :=
  ⟨by decide, by decide⟩

/-- C1 (amended).  For every input and every period ≥ 1: `calculateSMA`,
`calculateEMA` and `calculateRSI` return arrays of exactly the input
length, and `calculateATR` does so on well-formed input whose length is
at least `period` or below 2; every index before the warm-up boundary —
`period - 1` for SMA/EMA/ATR, `period` for RSI — holds null; and for
inputs of length ≥ `period + 5`, every index from the warm-up boundary
onward holds a non-null value. -/
theorem indicator_warmup_amended (data highData lowData closeData : List ℚ)
    (period : ℕ) (hp : 1 ≤ period) (h1 : highData.length = lowData.length)
    (h2 : lowData.length = closeData.length) :
    (calculateSMA data period).length = data.length ∧
    (calculateEMA data period).length = data.length ∧
    (calculateRSI data period).length = data.length ∧
    (period ≤ highData.length ∨ highData.length < 2 →
      (calculateATR highData lowData closeData period).length = highData.length) ∧
    ((calculateSMA data period).take (period - 1)).all (fun x => x.isNone) = true ∧
    ((calculateEMA data period).take (period - 1)).all (fun x => x.isNone) = true ∧
    ((calculateRSI data period).take period).all (fun x => x.isNone) = true ∧
    ((calculateATR highData lowData closeData period).take (period - 1)).all
      (fun x => x.isNone) = true ∧
    (period + 5 ≤ data.length →
      ((calculateSMA data period).drop (period - 1)).all (fun x => x.isSome) = true ∧
      ((calculateEMA data period).drop (period - 1)).all (fun x => x.isSome) = true ∧
      ((calculateRSI data period).drop period).all (fun x => x.isSome) = true) ∧
    (period + 5 ≤ highData.length →
      ((calculateATR highData lowData closeData period).drop (period - 1)).all
        (fun x => x.isSome) = true) :=
  ⟨calculateSMA_length data period,
   calculateEMA_length data period hp,
   calculateRSI_length data period,
   fun hor => calculateATR_length highData lowData closeData period hp h1 h2 hor,
   calculateSMA_warmup_none data period,
   calculateEMA_warmup_none data period,
   calculateRSI_warmup_none data period,
   calculateATR_warmup_none highData lowData closeData period,
   fun h5 => ⟨calculateSMA_warmup_some data period h5,
     calculateEMA_warmup_some data period h5,
     calculateRSI_warmup_some data period h5⟩,
   fun h5 => calculateATR_warmup_some highData lowData closeData period h1 h2 h5⟩

/-- Witness for C1 (amended): the nine-point list at period 4. -/
theorem indicator_warmup_amended_witness :
    1 ≤ 4 ∧ nineList.length = nineList.length ∧ nineList.length = nineList.length ∧
    ((calculateSMA nineList 4).length = nineList.length ∧
    (calculateEMA nineList 4).length = nineList.length ∧
    (calculateRSI nineList 4).length = nineList.length ∧
    (4 ≤ nineList.length ∨ nineList.length < 2 →
      (calculateATR nineList nineList nineList 4).length = nineList.length) ∧
    ((calculateSMA nineList 4).take (4 - 1)).all (fun x => x.isNone) = true ∧
    ((calculateEMA nineList 4).take (4 - 1)).all (fun x => x.isNone) = true ∧
    ((calculateRSI nineList 4).take 4).all (fun x => x.isNone) = true ∧
    ((calculateATR nineList nineList nineList 4).take (4 - 1)).all
      (fun x => x.isNone) = true ∧
    (4 + 5 ≤ nineList.length →
      ((calculateSMA nineList 4).drop (4 - 1)).all (fun x => x.isSome) = true ∧
      ((calculateEMA nineList 4).drop (4 - 1)).all (fun x => x.isSome) = true ∧
      ((calculateRSI nineList 4).drop 4).all (fun x => x.isSome) = true) ∧
    (4 + 5 ≤ nineList.length →
      ((calculateATR nineList nineList nineList 4).drop (4 - 1)).all
        (fun x => x.isSome) = true)) :=
  ⟨by decide, rfl, rfl,
    indicator_warmup_amended nineList nineList nineList nineList 4 (by decide) rfl rfl⟩

/-- C5 (counterexample).  RSI is not invariant to scaling by `k > 0`: on
a strictly rising series the average loss is `0`, the constant `0.001`
floor enters the `RS` quotient, and the scale factor survives —
`RSI([1..15]) = 100 - 100/1001` while `RSI(2*[1..15]) = 100 -
100/2001`. -/
theorem rsi_scale_counterexample :
    calculateRSI [(2 : ℚ), 4, 6, 8, 10, 12, 14, 16, 18, 20, 22, 24, 26, 28, 30] 14 ≠
      calculateRSI [(1 : ℚ), 2, 3, 4, 5, 6, 7, 8, 9, 10, 11, 12, 13, 14, 15] 14 := by
  decide

/-- Differencing commutes with scaling. -/
theorem priceDiffs_map_mul (k : ℚ) : ∀ (data : List ℚ),
    priceDiffs (data.map (fun x => k * x)) = (priceDiffs data).map (fun c => k * c)
  | [] => rfl
  | [_] => rfl
  | x :: y :: rest => by
    have ih := priceDiffs_map_mul k (y :: rest)
    simp only [priceDiffs, List.map_cons, List.tail_cons, List.zipWith_cons_cons] at ih ⊢
    rw [ih]
    rw [mul_sub]

/-- Gains scale with a positive factor. -/
theorem gainOf_mul (k : ℚ) (hk : 0 < k) (c : ℚ) : gainOf (k * c) = k * gainOf c := by
  unfold gainOf
  by_cases h : 0 < c
  · rw [if_pos h, if_pos (mul_pos hk h)]
  · rw [if_neg h, if_neg (fun hkc => h (by nlinarith)), mul_zero]

/-- Losses scale with a positive factor. -/
theorem lossOf_mul (k : ℚ) (hk : 0 < k) (c : ℚ) : lossOf (k * c) = k * lossOf c := by
  unfold lossOf
  by_cases h : 0 < c
  · rw [if_pos h, if_pos (mul_pos hk h), mul_zero]
  · rw [if_neg h, if_neg (fun hkc => h (by nlinarith))]
    ring

/-- Losses are nonnegative. -/
theorem lossOf_nonneg (c : ℚ) : 0 ≤ lossOf c := by
  unfold lossOf
  split
  · exact le_refl 0
  · rename_i h
    simp only [not_lt] at h
    linarith

/-- The loss sum is nonnegative. -/
theorem sum_lossOf_nonneg (l : List ℚ) : 0 ≤ (l.map lossOf).sum := by
  induction l with
  | nil => exact le_refl 0
  | cons c cs ih =>
    simp only [List.map_cons, List.sum_cons]
    have := lossOf_nonneg c
    linarith

/-- A strict loss anywhere makes the loss sum positive. -/
theorem sum_lossOf_pos (l : List ℚ) (h : l.any (fun c => decide (c < 0)) = true) :
    0 < (l.map lossOf).sum := by
  induction l with
  | nil => simp at h
  | cons c cs ih =>
    simp only [List.any_cons, Bool.or_eq_true, decide_eq_true_eq] at h
    simp only [List.map_cons, List.sum_cons]
    rcases h with hc | hcs
    · have h1 : 0 < lossOf c := by
        unfold lossOf
        rw [if_neg (by linarith)]
        linarith
      have h2 := sum_lossOf_nonneg cs
      linarith
    · have h1 := ih hcs
      have h2 := lossOf_nonneg c
      linarith

/-- The Wilder smoothing loop is invariant under a positive scaling of
its state and inputs, as long as the running average loss stays
positive (so the floor never fires); this needs `period ≥ 2`, since at
`period = 1` the smoothed loss forgets its positive past. -/
theorem rsiScan_mul (p k : ℚ) (hk : 0 < k) (hp1 : 0 < p - 1) (hp0 : 0 < p) :
    ∀ (cs : List ℚ) (g l : ℚ), 0 < l →
      rsiScan p (k * g) (k * l) (cs.map (fun c => k * c)) = rsiScan p g l cs
  | [], _, _, _ => rfl
  | c :: cs, g, l, hl => by
    have hg2 : ((k * g) * (p - 1) + gainOf (k * c)) / p =
        k * ((g * (p - 1) + gainOf c) / p) := by
      rw [gainOf_mul k hk]
      field_simp
      ring
    have hl2 : ((k * l) * (p - 1) + lossOf (k * c)) / p =
        k * ((l * (p - 1) + lossOf c) / p) := by
      rw [lossOf_mul k hk]
      field_simp
      ring
    have hl2pos : 0 < (l * (p - 1) + lossOf c) / p := by
      have := lossOf_nonneg c
      have : 0 < l * (p - 1) + lossOf c := by nlinarith
      positivity
    simp only [rsiScan, List.map_cons]
    rw [hg2, hl2]
    have hne : k * ((l * (p - 1) + lossOf c) / p) ≠ 0 :=
      ne_of_gt (mul_pos hk hl2pos)
    have hne2 : (l * (p - 1) + lossOf c) / p ≠ 0 := ne_of_gt hl2pos
    rw [if_neg hne, if_neg hne2, mul_div_mul_left _ _ (ne_of_gt hk)]
    rw [rsiScan_mul p k hk hp1 hp0 cs _ _ hl2pos]

/-- C5 (amended).  RSI is invariant to scaling the price series by a
positive constant provided at least one of the first `period` price
changes is strictly negative (so the average loss is positive from the
start and the `0.001` division floor never fires), for `period ≥ 2`.
Without that proviso the floor breaks scale invariance (see the
counterexample). -/
theorem rsi_scale_invariant_amended (data : List ℚ) (period : ℕ) (k : ℚ)
    (hk : 0 < k) (hp : 2 ≤ period)
    (hneg : ((priceDiffs data).take period).any (fun c => decide (c < 0)) = true) :
    calculateRSI (data.map (fun x => k * x)) period = calculateRSI data period := by
  unfold calculateRSI
  simp only [List.length_map]
  by_cases hlen : data.length < period + 1
  · rw [if_pos hlen, if_pos hlen]
  · rw [if_neg hlen, if_neg hlen]
    rw [priceDiffs_map_mul k data]
    rw [← List.map_take, ← List.map_drop, List.map_map, List.map_map]
    have hgain : (gainOf ∘ fun c => k * c) = fun c => k * gainOf c :=
      funext fun c => gainOf_mul k hk c
    have hloss : (lossOf ∘ fun c => k * c) = fun c => k * lossOf c :=
      funext fun c => lossOf_mul k hk c
    rw [hgain, hloss, List.sum_map_mul_left, List.sum_map_mul_left]
    have hp0 : (0 : ℚ) < period := by
      have : (2 : ℚ) ≤ (period : ℚ) := by exact_mod_cast hp
      linarith
    have hp1 : (0 : ℚ) < (period : ℚ) - 1 := by
      have : (2 : ℚ) ≤ (period : ℚ) := by exact_mod_cast hp
      linarith
    have hLpos : 0 < (((priceDiffs data).take period).map lossOf).sum / period :=
      div_pos (sum_lossOf_pos _ hneg) hp0
    have hA : k * (((priceDiffs data).take period).map gainOf).sum / (period : ℚ) =
        k * ((((priceDiffs data).take period).map gainOf).sum / (period : ℚ)) :=
      mul_div_assoc _ _ _
    have hB : k * (((priceDiffs data).take period).map lossOf).sum / (period : ℚ) =
        k * ((((priceDiffs data).take period).map lossOf).sum / (period : ℚ)) :=
      mul_div_assoc _ _ _
    rw [hA, hB]
    rw [if_neg (ne_of_gt (mul_pos hk hLpos)), if_neg (ne_of_gt hLpos)]
    rw [mul_div_mul_left _ _ (ne_of_gt hk)]
    rw [rsiScan_mul (period : ℚ) k hk hp1 hp0 _ _ _ hLpos]

/-- Witness for C5 (amended): `lossyList` scaled by 2. -/
theorem rsi_scale_invariant_amended_witness :
    0 < (2 : ℚ) ∧ 2 ≤ 14 ∧
      ((priceDiffs lossyList).take 14).any (fun c => decide (c < 0)) = true ∧
      calculateRSI (lossyList.map (fun x => (2 : ℚ) * x)) 14 = calculateRSI lossyList 14 :=
  ⟨by decide, by decide, by decide,
    rsi_scale_invariant_amended lossyList 14 2 (by decide) (by decide) (by decide)⟩

section BacktestChain

-- The chain proofs below are purely symbolic and never evaluate a rational;
-- restoring irreducibility keeps the rewriting of `backtestLoopAux` small.
attribute [local irreducible] Rat.add Rat.mul Rat.inv Rat.sub Rat.ofScientific

/-- The backtest walk preserves non-overlap: if the accumulated trades
are chained by `entryBar + barsHeld ≤ next entryBar` and the last one
ends at or before the current bar, so is the final list — each new trade
enters at the current bar `i` and the walk resumes past its held bars. -/
theorem backtestStep_entryBar (data : List Candle) (options : Options) (i : ℕ)
    (t : Trade) (h : backtestStep data options i = some t) : t.entryBar = i := by
  unfold backtestStep at h
  dsimp only at h
  split at h
  · cases h
    rfl
  · cases h

theorem backtestLoopAux_chain (data : List Candle) (options : Options) :
    ∀ (fuel i : ℕ) (acc : List Trade),
      List.Chain' (fun a b => a.entryBar + a.barsHeld ≤ b.entryBar) acc →
      (∀ t, acc.getLast? = some t → t.entryBar + t.barsHeld ≤ i) →
      List.Chain' (fun a b => a.entryBar + a.barsHeld ≤ b.entryBar)
        (backtestLoopAux data options fuel i acc) := by
  intro fuel
  induction fuel with
  | zero => intro i acc hacc hlast; exact hacc
  | succ fuel ih =>
    intro i acc hacc hlast
    rw [backtestLoopAux]
    split
    · cases hstep : backtestStep data options i with
      | some trade =>
        have hentry := backtestStep_entryBar data options i trade hstep
        apply ih
        · rw [List.chain'_append]
          refine ⟨hacc, List.chain'_singleton _, ?_⟩
          intro x hx y hy
          simp only [List.head?_cons, Option.mem_def, Option.some_inj] at hy
          rw [← hy, hentry]
          exact hlast x hx
        · intro t ht
          rw [List.getLast?_concat] at ht
          cases ht
          omega
      | none =>
        exact ih (i + 1) acc hacc (fun t ht => le_trans (hlast t ht) (by omega))
    · exact hacc

/-- The backtest walk preserves non-overlap. -/
theorem backtestLoop_chain (data : List Candle) (options : Options) (i : ℕ)
    (acc : List Trade)
    (hacc : List.Chain' (fun a b => a.entryBar + a.barsHeld ≤ b.entryBar) acc)
    (hlast : ∀ t, acc.getLast? = some t → t.entryBar + t.barsHeld ≤ i) :
    List.Chain' (fun a b => a.entryBar + a.barsHeld ≤ b.entryBar)
      (backtestLoop data options i acc) :=
  backtestLoopAux_chain data options (data.length - i) i acc hacc hlast

/-- The statistics object carries exactly the recorded trades. -/
theorem mkBacktestStats_trades (trades : List Trade) :
    (mkBacktestStats trades).trades = trades := by
  unfold mkBacktestStats
  dsimp only
  split <;> rfl

/-- C2.  For every daily candle sequence of length ≥ 250 and every
config, the recorded trades of `backtestBreakoutStrategy` never overlap:
consecutive trades satisfy
`trade[n+1].entryBar ≥ trade[n].entryBar + trade[n].barsHeld` (stated as
the chain of that relation over the trade list). -/
theorem backtest_trades_never_overlap (historicalData : List Candle)
    (options : Options) (h : 250 ≤ historicalData.length) :
    List.Chain' (fun a b => a.entryBar + a.barsHeld ≤ b.entryBar)
      (tradesOf (backtestBreakoutStrategy historicalData options)) := by
  unfold backtestBreakoutStrategy
  rw [if_neg (by omega)]
  show List.Chain' _ (mkBacktestStats _).trades
  rw [mkBacktestStats_trades]
  exact backtestLoop_chain historicalData options 200 [] List.chain'_nil
    (fun t ht => by simp at ht)

/-- Witness for C2: 250 flat candles (no trade fires, and the chain is
instantiated at a concrete ≥ 250-bar input). -/
theorem backtest_trades_never_overlap_witness :
    250 ≤ (List.replicate 250 flatCandle).length ∧
      List.Chain' (fun a b => a.entryBar + a.barsHeld ≤ b.entryBar)
        (tradesOf (backtestBreakoutStrategy (List.replicate 250 flatCandle) detectorOpts)) :=
  ⟨by simp, backtest_trades_never_overlap (List.replicate 250 flatCandle) detectorOpts (by simp)⟩

end BacktestChain

/-- An in-range `getD` of an all-`c` list is `c`. -/
theorem getD_of_const {l : List ℚ} {c : ℚ} (h : ∀ x ∈ l, x = c) {n : ℕ}
    (hn : n < l.length) (d : ℚ) : l.getD n d = c := by
  rw [List.getD_eq_getElem?_getD, List.getElem?_eq_getElem hn]
  exact h _ (List.getElem_mem hn)

/-- A `getD` with default `c` of an all-`c` list is `c` at every index. -/
theorem getD_of_const_default {l : List ℚ} {c : ℚ} (h : ∀ x ∈ l, x = c) (n : ℕ) :
    l.getD n c = c := by
  by_cases hn : n < l.length
  · exact getD_of_const h hn c
  · rw [List.getD_eq_default _ _ (by omega)]

/-- A `getD` is a member or the default. -/
theorem getD_mem_or_default (l : List α) (n : ℕ) (d : α) :
    l.getD n d ∈ l ∨ l.getD n d = d := by
  by_cases hn : n < l.length
  · left
    rw [List.getD_eq_getElem?_getD, List.getElem?_eq_getElem hn]
    exact List.getElem_mem hn
  · right
    exact List.getD_eq_default _ _ (by omega)

/-- Folding `max` over an all-`c` list from `c` stays at `c`. -/
theorem foldl_max_const {c : ℚ} : ∀ (l : List ℚ), (∀ x ∈ l, x = c) →
    l.foldl max c = c
  | [], _ => rfl
  | x :: xs, h => by
    rw [List.foldl_cons, h x (by simp), max_self]
    exact foldl_max_const xs (fun y hy => h y (by simp [hy]))

/-- Folding `min` over an all-`c` list from `c` stays at `c`. -/
theorem foldl_min_const {c : ℚ} : ∀ (l : List ℚ), (∀ x ∈ l, x = c) →
    l.foldl min c = c
  | [], _ => rfl
  | x :: xs, h => by
    rw [List.foldl_cons, h x (by simp), min_self]
    exact foldl_min_const xs (fun y hy => h y (by simp [hy]))

/-- The max of a nonempty all-`c` list is `c`. -/
theorem listMax_const {l : List ℚ} {c : ℚ} (h : ∀ x ∈ l, x = c) (hne : l ≠ []) :
    listMax l = c := by
  cases l with
  | nil => exact absurd rfl hne
  | cons x xs =>
    unfold listMax
    rw [h x (by simp)]
    exact foldl_max_const xs (fun y hy => h y (by simp [hy]))

/-- The min of a nonempty all-`c` list is `c`. -/
theorem listMin_const {l : List ℚ} {c : ℚ} (h : ∀ x ∈ l, x = c) (hne : l ≠ []) :
    listMin l = c := by
  cases l with
  | nil => exact absurd rfl hne
  | cons x xs =>
    unfold listMin
    rw [h x (by simp)]
    exact foldl_min_const xs (fun y hy => h y (by simp [hy]))

/-- The sum of an all-`c` list. -/
theorem sum_of_const {c : ℚ} : ∀ (l : List ℚ), (∀ x ∈ l, x = c) →
    l.sum = l.length * c
  | [], _ => by simp
  | x :: xs, h => by
    rw [List.sum_cons, h x (by simp), sum_of_const xs (fun y hy => h y (by simp [hy]))]
    simp only [List.length_cons]
    push_cast
    ring

/-- Differences of a constant list are all zero. -/
theorem priceDiffs_const_zero {c : ℚ} : ∀ (l : List ℚ), (∀ x ∈ l, x = c) →
    ∀ y ∈ priceDiffs l, y = 0
  | [], _ => by simp [priceDiffs]
  | [x], _ => by simp [priceDiffs]
  | x :: y :: rest, h => by
    intro z hz
    simp only [priceDiffs, List.tail_cons, List.zipWith_cons_cons] at hz
    rcases List.mem_cons.mp hz with hz1 | hz2
    · rw [hz1, h x (by simp), h y (by simp)]
      ring
    · exact priceDiffs_const_zero (y :: rest) (fun w hw => h w (by simp at hw ⊢; tauto)) z
        (by simpa [priceDiffs] using hz2)

/-- Every element of a `zipWith` comes from a pair of members. -/
theorem zipWith_mem (f : α → β → γ) : ∀ (l1 : List α) (l2 : List β),
    ∀ y ∈ List.zipWith f l1 l2, ∃ a ∈ l1, ∃ b ∈ l2, y = f a b
  | [], _, y, hy => by simp at hy
  | _ :: _, [], y, hy => by simp at hy
  | a :: as, b :: bs, y, hy => by
    rw [List.zipWith_cons_cons] at hy
    rcases List.mem_cons.mp hy with h | h
    · exact ⟨a, by simp, b, by simp, h⟩
    · obtain ⟨a2, ha2, b2, hb2, hy2⟩ := zipWith_mem f as bs y h
      exact ⟨a2, by simp [ha2], b2, by simp [hb2], hy2⟩

/-- Every element of a `zip3With` comes from a triple of members. -/
theorem zip3With_mem (f : α → β → γ → δ) : ∀ (l1 : List α) (l2 : List β) (l3 : List γ),
    ∀ y ∈ zip3With f l1 l2 l3, ∃ a ∈ l1, ∃ b ∈ l2, ∃ c ∈ l3, y = f a b c
  | a :: as, b :: bs, c :: cs, y, hy => by
    rw [zip3With] at hy
    rcases List.mem_cons.mp hy with h | h
    · exact ⟨a, by simp, b, by simp, c, by simp, h⟩
    · obtain ⟨a2, ha2, b2, hb2, c2, hc2, hy2⟩ := zip3With_mem f as bs cs y h
      exact ⟨a2, by simp [ha2], b2, by simp [hb2], c2, by simp [hc2], hy2⟩
  | [], _, _, y, hy => by simp [zip3With] at hy
  | _ :: _, [], _, y, hy => by simp [zip3With] at hy
  | _ :: _, _ :: _, [], y, hy => by simp [zip3With] at hy

/-- The EMA recurrence is stationary at `c` on all-`c` input. -/
theorem emaScan_const {m c : ℚ} : ∀ (xs : List ℚ), (∀ x ∈ xs, x = c) →
    ∀ y ∈ emaScan m c xs, y = c
  | [], _ => by simp [emaScan]
  | x :: xs, h => by
    intro y hy
    have hx : x = c := h x (by simp)
    simp only [emaScan, hx] at hy
    have hc : (c - c) * m + c = c := by ring
    rw [hc] at hy
    rcases List.mem_cons.mp hy with h1 | h1
    · exact h1
    · exact emaScan_const xs (fun w hw => h w (by simp [hw])) y h1

/-- Every EMA entry over an all-`c` series is null or `c` (`period ≥ 1`). -/
theorem calculateEMA_mem_const {l : List ℚ} {c : ℚ} (h : ∀ x ∈ l, x = c)
    {period : ℕ} (hp : 1 ≤ period) :
    ∀ y ∈ calculateEMA l period, y = none ∨ y = some c := by
  unfold calculateEMA
  split
  · intro y hy
    exact Or.inl (List.eq_of_mem_replicate hy)
  · rename_i hlen
    push_neg at hlen
    have hseed : (l.take period).sum / (period : ℚ) = c := by
      have htake : ∀ x ∈ l.take period, x = c := fun x hx => h x (List.mem_of_mem_take hx)
      rw [sum_of_const _ htake]
      rw [List.length_take, min_eq_left hlen]
      rw [mul_comm, mul_div_assoc, div_self (by positivity), mul_one]
    intro y hy
    rw [hseed] at hy
    rcases List.mem_append.mp hy with h1 | h1
    · rcases List.mem_append.mp h1 with h2 | h2
      · exact Or.inl (List.eq_of_mem_replicate h2)
      · exact Or.inr (List.mem_singleton.mp h2)
    · obtain ⟨b, hb, rfl⟩ := List.mem_map.mp h1
      have hdrop : ∀ x ∈ l.drop period, x = c := fun x hx => h x (List.mem_of_mem_drop hx)
      exact Or.inr (congrArg some (emaScan_const _ hdrop b hb))

/-- The RSI smoothing loop is stationary at zero state on zero diffs. -/
theorem rsiScan_zero {p : ℚ} : ∀ (cs : List ℚ), (∀ x ∈ cs, x = 0) →
    ∀ y ∈ rsiScan p 0 0 cs, y = 0
  | [], _ => by simp [rsiScan]
  | x :: xs, h => by
    intro y hy
    have hx : x = 0 := h x (by simp)
    simp only [rsiScan, hx] at hy
    have hg : (0 * (p - 1) + gainOf 0) / p = 0 := by
      unfold gainOf
      norm_num
    have hl : (0 * (p - 1) + lossOf 0) / p = 0 := by
      unfold lossOf
      norm_num
    rw [hg, hl] at hy
    have hrs : (100 : ℚ) - 100 / (1 + 0 / (if (0:ℚ) = 0 then 1/1000 else 0)) = 0 := by
      norm_num
    rw [hrs] at hy
    rcases List.mem_cons.mp hy with h1 | h1
    · exact h1
    · exact rsiScan_zero xs (fun w hw => h w (by simp [hw])) y h1

/-- Every RSI entry over an all-`c` series is null or `0`. -/
theorem calculateRSI_mem_const {l : List ℚ} {c : ℚ} (h : ∀ x ∈ l, x = c)
    (period : ℕ) :
    ∀ y ∈ calculateRSI l period, y = none ∨ y = some 0 := by
  unfold calculateRSI
  split
  · intro y hy
    exact Or.inl (List.eq_of_mem_replicate hy)
  · rename_i hlen
    have hdiffs := priceDiffs_const_zero l h
    have hgain : ((priceDiffs l).take period).map gainOf = ((priceDiffs l).take period).map (fun _ => 0) := by
      apply List.map_congr_left
      intro x hx
      rw [hdiffs x (List.mem_of_mem_take hx)]
      unfold gainOf
      norm_num
    have hloss : ((priceDiffs l).take period).map lossOf = ((priceDiffs l).take period).map (fun _ => 0) := by
      apply List.map_congr_left
      intro x hx
      rw [hdiffs x (List.mem_of_mem_take hx)]
      unfold lossOf
      norm_num
    intro y hy
    dsimp only at hy
    rw [hgain, hloss] at hy
    have hzero : (((priceDiffs l).take period).map (fun _ => (0:ℚ))).sum = 0 := by
      rw [sum_of_const _ (by intro x hx; obtain ⟨b, _, rfl⟩ := List.mem_map.mp hx; rfl)]
      ring
    rw [hzero] at hy
    have h0 : (0 : ℚ) / (period : ℚ) = 0 := by norm_num
    rw [h0] at hy
    have hrs : (100 : ℚ) - 100 / (1 + 0 / (if (0:ℚ) = 0 then 1/1000 else 0)) = 0 := by
      norm_num
    rw [hrs] at hy
    rcases List.mem_append.mp hy with h1 | h1
    · rcases List.mem_append.mp h1 with h2 | h2
      · exact Or.inl (List.eq_of_mem_replicate h2)
      · exact Or.inr (List.mem_singleton.mp h2)
    · obtain ⟨b, hb, rfl⟩ := List.mem_map.mp h1
      have hdrop : ∀ x ∈ (priceDiffs l).drop period, x = 0 :=
        fun x hx => hdiffs x (List.mem_of_mem_drop hx)
      exact Or.inr (congrArg some (rsiScan_zero _ hdrop b hb))

/-- The SMA of an all-`c` series is `c` at every valid index past the
warm-up. -/
theorem calculateSMA_const_getD {l : List ℚ} {c : ℚ} (h : ∀ x ∈ l, x = c)
    {period : ℕ} (hp : 1 ≤ period) {i : ℕ} (hi1 : period - 1 ≤ i)
    (hi2 : i < l.length) :
    (calculateSMA l period).getD i none = some c := by
  unfold calculateSMA
  rw [if_neg (by omega)]
  rw [getD_range_map _ _ _ _ hi2]
  rw [if_neg (by omega)]
  congr 1
  have hmap : (List.range period).map (fun j => l.getD (i - j) 0) =
      (List.range period).map (fun _ => c) := by
    apply List.map_congr_left
    intro j hj
    exact getD_of_const h (by omega) 0
  rw [hmap, sum_of_const _ (by intro x hx; obtain ⟨b, _, rfl⟩ := List.mem_map.mp hx; rfl)]
  rw [List.length_map, List.length_range]
  rw [mul_comm, mul_div_assoc, div_self (by positivity), mul_one]

/-- Source `calculateBollingerBands` preserves the input length. -/
theorem calculateBollingerBands_length (data : List ℚ) (period : ℕ) (s : ℚ) :
    (calculateBollingerBands data period s).length = data.length := by
  unfold calculateBollingerBands
  split
  · simp
  · simp

/-- Source `jsSqrt 0 = 0`. -/
theorem jsSqrt_zero : jsSqrt 0 = 0 := by decide

/-- The Bollinger entry of an all-`c` series (with `c ≠ 0`) at a valid
index past the warm-up: bands collapse onto `c`, width `0`, percent
`0`. -/
theorem calculateBollingerBands_const_getD {l : List ℚ} {c : ℚ} (h : ∀ x ∈ l, x = c)
    (hc : c ≠ 0) {period : ℕ} (hp : 1 ≤ period) (hpl : period ≤ l.length) {i : ℕ}
    (hi1 : period - 1 ≤ i) (hi2 : i < l.length) :
    (calculateBollingerBands l period 2).getD i bbNone =
      ⟨some c, some c, some c, some 0, some 0⟩ := by
  unfold calculateBollingerBands
  rw [if_neg (by omega)]
  rw [getD_range_map _ _ _ _ hi2]
  rw [if_neg (by omega)]
  have hsma : ((calculateSMA l period).getD i none).getD 0 = c := by
    rw [calculateSMA_const_getD h hp hi1 hi2]
    rfl
  rw [hsma]
  dsimp only
  have hvar : (List.range period).map (fun j => (l.getD (i - j) 0 - c) ^ 2) =
      (List.range period).map (fun _ => 0) := by
    apply List.map_congr_left
    intro j hj
    rw [getD_of_const h (by omega) 0]
    ring
  rw [hvar, sum_of_const _ (by intro x hx; obtain ⟨b, _, rfl⟩ := List.mem_map.mp hx; rfl)]
  have hz : ((List.range period).map (fun _ => (0:ℚ))).length * (0:ℚ) / (period : ℚ) = 0 := by
    norm_num
  rw [hz, jsSqrt_zero]
  have hgd : l.getD i 0 = c := getD_of_const h hi2 0
  rw [hgd, if_neg hc]
  have e1 : c + 2 * 0 = c := by ring
  have e2 : c - 2 * 0 = c := by ring
  rw [e1, e2]
  have e3 : (c - c) / c = 0 := by
    rw [sub_self]
    norm_num
  rw [e3, sub_self]
  norm_num

/-- Source `detectBollingerBreakout` is false on an all-`c` series with `c ≠ 0`
and at least `period ≥ 20` bars: the latest close `c` is never above
the collapsed upper band `c`. -/
theorem detectBollingerBreakout_const {l : List ℚ} {c : ℚ} (h : ∀ x ∈ l, x = c)
    (hc : c ≠ 0) (hlen : 20 ≤ l.length) :
    detectBollingerBreakout l (calculateBollingerBands l 20 2) 10 = false := by
  unfold detectBollingerBreakout
  rw [if_neg (by rw [calculateBollingerBands_length]; omega)]
  have hbl : (calculateBollingerBands l 20 2).length = l.length :=
    calculateBollingerBands_length l 20 2
  have hdl : ((calculateBollingerBands l 20 2).drop
      ((calculateBollingerBands l 20 2).length - 10)).length = 10 := by
    rw [List.length_drop]
    omega
  have hup : (((calculateBollingerBands l 20 2).drop
      ((calculateBollingerBands l 20 2).length - 10)).getD 9 bbNone).upper = some c := by
    have : ((calculateBollingerBands l 20 2).drop
        ((calculateBollingerBands l 20 2).length - 10)).getD 9 bbNone =
        (calculateBollingerBands l 20 2).getD (l.length - 1) bbNone := by
      rw [List.getD_eq_getElem?_getD, List.getElem?_drop,
        List.getD_eq_getElem?_getD]
      congr 2
      omega
    rw [this, calculateBollingerBands_const_getD h hc (by omega) hlen (by omega) (by omega)]
  have hprice : (l.drop (l.length - 10)).getD ((l.drop (l.length - 10)).length - 1) 0 = c := by
    apply getD_of_const
    · intro x hx
      exact h x (List.mem_of_mem_drop hx)
    · rw [List.length_drop]
      omega
  dsimp only
  rw [hdl, hprice]
  have h9 : (10 : ℕ) - 1 = 9 := rfl
  rw [h9, hup]
  simp only [Option.getD_some]
  rw [decide_eq_false (lt_irrefl c)]
  rw [Bool.and_false]

/-- Every MACD entry over an all-`c` series has a histogram that
coerces to `0` (it is null or exactly `0`). -/
theorem calculateMACD_histogram_zero {l : List ℚ} {c : ℚ} (h : ∀ x ∈ l, x = c) :
    ∀ pt ∈ calculateMACD l 12 26 9, pt.histogram.getD 0 = 0 := by
  unfold calculateMACD
  split
  · intro pt hpt
    rw [List.eq_of_mem_replicate hpt]
    rfl
  · intro pt hpt
    dsimp only at hpt
    have hmacd : ∀ m ∈ List.zipWith
        (fun f s => match f, s with
          | some a, some b => some (a - b)
          | _, _ => (none : Option ℚ)) (calculateEMA l 12) (calculateEMA l 26),
        m = none ∨ m = some 0 := by
      intro m hm
      obtain ⟨a, ha, b, hb, rfl⟩ := zipWith_mem _ _ _ m hm
      rcases calculateEMA_mem_const h (by omega) a ha with h1 | h1 <;>
        rcases calculateEMA_mem_const h (by omega) b hb with h2 | h2 <;>
          rw [h1, h2]
      · exact Or.inl rfl
      · exact Or.inl rfl
      · exact Or.inl rfl
      · exact Or.inr (congrArg some (sub_self c))
    obtain ⟨m, hm, s, hs, rfl⟩ := zipWith_mem _ _ _ pt hpt
    have hsig : s = none ∨ s = some 0 := by
      split at hs
      · rcases List.mem_append.mp hs with h2 | h2
        · exact Or.inl (List.eq_of_mem_replicate h2)
        · have hvalid : ∀ x ∈ (List.zipWith
              (fun f s => match f, s with
                | some a, some b => some (a - b)
                | _, _ => (none : Option ℚ)) (calculateEMA l 12)
                (calculateEMA l 26)).filterMap id, x = (0 : ℚ) := by
            intro x hx
            obtain ⟨a, ha, hax⟩ := List.mem_filterMap.mp hx
            rcases hmacd a ha with h3 | h3
            · rw [h3] at hax
              cases hax
            · rw [h3] at hax
              cases hax
              rfl
          exact calculateEMA_mem_const hvalid (by omega) s h2
      · exact Or.inl (List.eq_of_mem_replicate hs)
    rcases hmacd m hm with h1 | h1 <;> rcases hsig with h2 | h2 <;> rw [h1, h2] <;> rfl

/-- The MACD crossover condition is false on an all-`c` series: the
current histogram coerces to `0`, never strictly positive. -/
theorem macdCrossover_const {l : List ℚ} {c : ℚ} (h : ∀ x ∈ l, x = c) :
    macdCrossover (calculateMACD l 12 26 9) = false := by
  unfold macdCrossover
  split
  · rfl
  · have hcur : ((calculateMACD l 12 26 9).getD
        ((calculateMACD l 12 26 9).length - 1) macdNone).histogram.getD 0 = 0 := by
      rcases getD_mem_or_default (calculateMACD l 12 26 9)
          ((calculateMACD l 12 26 9).length - 1) macdNone with hm | hd
      · exact calculateMACD_histogram_zero h _ hm
      · rw [hd]
        rfl
    rw [hcur]
    rw [decide_eq_false (lt_irrefl 0)]
    rw [Bool.and_false]

/-- The OBV loop is stationary when every step's closes are equal. -/
theorem obvScan_const : ∀ (steps : List (ℚ × ℚ × ℚ)) (o : ℚ),
    (∀ t ∈ steps, t.1 = t.2.1) → ∀ y ∈ obvScan o steps, y = o
  | [], _, _ => by simp [obvScan]
  | (prev, cur, vol) :: rest, o, h => by
    intro y hy
    have hpc : prev = cur := h (prev, cur, vol) (by simp)
    simp only [obvScan] at hy
    rw [hpc] at hy
    rw [if_neg (lt_irrefl cur), if_neg (lt_irrefl cur)] at hy
    rcases List.mem_cons.mp hy with h1 | h1
    · exact h1
    · exact obvScan_const rest o (fun t ht => h t (by simp [ht])) y h1

/-- Every OBV entry over constant closes and zero volumes coerces to
`0`. -/
theorem calculateOBV_zero {closeData volumeData : List ℚ} {c : ℚ}
    (hclose : ∀ x ∈ closeData, x = c) (hvol : ∀ x ∈ volumeData, x = 0) :
    ∀ y ∈ calculateOBV closeData volumeData, y.getD 0 = 0 := by
  unfold calculateOBV
  split
  · intro y hy
    rw [List.eq_of_mem_replicate hy]
    rfl
  · intro y hy
    have hv0 : volumeData.getD 0 0 = 0 := getD_of_const_default hvol 0
    rw [hv0] at hy
    have hsteps : ∀ t ∈ zip3With (fun prev cur vol => (prev, cur, vol))
        closeData closeData.tail volumeData.tail, t.1 = t.2.1 := by
      intro t ht
      obtain ⟨a, ha, b, hb, v, hv, rfl⟩ := zip3With_mem _ _ _ _ t ht
      rw [hclose a ha, hclose b (List.mem_of_mem_tail hb)]
    rcases List.mem_cons.mp hy with h1 | h1
    · rw [h1]
      rfl
    · obtain ⟨b, hb, rfl⟩ := List.mem_map.mp h1
      rw [Option.getD_some]
      exact obvScan_const _ _ hsteps b hb

/-- The OBV accumulation condition is false over constant closes and
zero volumes. -/
theorem obvAccumulating_const {closeData volumeData : List ℚ} {c : ℚ}
    (hclose : ∀ x ∈ closeData, x = c) (hvol : ∀ x ∈ volumeData, x = 0) :
    obvAccumulating (calculateOBV closeData volumeData) = false := by
  unfold obvAccumulating
  split
  · rfl
  · dsimp only
    have hval : ∀ n, ((calculateOBV closeData volumeData).getD n none).getD 0 = 0 := by
      intro n
      rcases getD_mem_or_default (calculateOBV closeData volumeData) n none with hm | hd
      · exact calculateOBV_zero hclose hvol _ hm
      · rw [hd]
        rfl
    rw [hval, hval]
    rw [decide_eq_false (lt_irrefl 0)]
    rw [Bool.false_and]

/-- The volume-increase condition is false on all-zero volumes. -/
theorem isVolumeIncreasing_zero {v : List ℚ} (h : ∀ x ∈ v, x = 0) (th : ℚ) :
    isVolumeIncreasing v th = false := by
  unfold isVolumeIncreasing
  split
  · rfl
  · dsimp only
    rw [getD_of_const_default h, getD_of_const_default h]
    rw [if_pos rfl]
    exact decide_eq_false (lt_irrefl 0)

/-- The RSI band condition (default 50–75 band) is false on an all-`c`
series: the RSI collapses to `0`, below the lower bound. -/
theorem rsiInRange_const {l : List ℚ} {c : ℚ} (h : ∀ x ∈ l, x = c) :
    rsiInRange (calculateRSI l 14) 50 75 = false := by
  unfold rsiInRange
  cases hy : (calculateRSI l 14).getD ((calculateRSI l 14).length - 1) none with
  | none => rfl
  | some r =>
    have hr : r = 0 := by
      rcases getD_mem_or_default (calculateRSI l 14)
          ((calculateRSI l 14).length - 1) none with hm | hd
      · rw [hy] at hm
        rcases calculateRSI_mem_const h 14 _ hm with h0 | h0
        · cases h0
        · exact Option.some_inj.mp h0
      · rw [hy] at hd
        cases hd
    subst hr
    show (decide ((50 : ℚ) ≤ 0) && decide ((0 : ℚ) ≤ 75)) = false
    rw [decide_eq_false (by norm_num : ¬ ((50 : ℚ) ≤ 0))]
    rw [Bool.false_and]

/-- The EMA200 condition (with the check required) is false on an
all-`c` series: the EMA is `c` wherever non-null, never below `c`. -/
theorem aboveEma200Cond_const {l : List ℚ} {c : ℚ} (h : ∀ x ∈ l, x = c) :
    aboveEma200Cond (calculateEMA l 200) c true = false := by
  unfold aboveEma200Cond
  rw [if_pos rfl]
  cases hy : (calculateEMA l 200).getD ((calculateEMA l 200).length - 1) none with
  | none => rfl
  | some e =>
    have he : e = c := by
      rcases getD_mem_or_default (calculateEMA l 200)
          ((calculateEMA l 200).length - 1) none with hm | hd
      · rw [hy] at hm
        rcases calculateEMA_mem_const h (by omega) _ hm with h0 | h0
        · cases h0
        · exact Option.some_inj.mp h0
      · rw [hy] at hd
        cases hd
    subst he
    show decide (e < e) = false
    exact decide_eq_false (lt_irrefl e)

/-- The breakout-percentage condition (default band) is false on an
all-`c` series with `c ≠ 0`: the last change fraction is `0`, below the
lower bound `0.01`. -/
theorem breakoutPercentCond_const {l : List ℚ} {c : ℚ} (h : ∀ x ∈ l, x = c)
    (hc : c ≠ 0) (hl2 : 2 ≤ l.length) :
    breakoutPercentCond l 0.01 0.20 = false := by
  unfold breakoutPercentCond
  rw [getD_of_const h (show l.length - 2 < l.length by omega) 0]
  rw [if_neg (by push_neg; exact ⟨by omega, hc⟩)]
  dsimp only
  rw [getD_of_const h (show l.length - 1 < l.length by omega) 0]
  rw [sub_self, zero_div]
  rw [decide_eq_false (by norm_num : ¬ ((0.01 : ℚ) ≤ 0))]
  rw [Bool.false_and]

/-- The low-scan only returns indices strictly inside the scanned
range. -/
theorem findTwoLowsAux_bounds (recent : List ℚ) : ∀ (d i : ℕ) (first : Option ℕ)
    (f s : ℕ), d + i ≤ recent.length - 5 →
    (∀ j, first = some j → j < recent.length - 5) →
    findTwoLowsAux recent d i first = some (f, s) →
    f < recent.length - 5 ∧ s < recent.length - 5 := by
  intro d
  induction d with
  | zero =>
    intro i first f s hdi hfirst heq
    cases heq
  | succ d ih =>
    intro i first f s hdi hfirst heq
    rw [findTwoLowsAux.eq_def] at heq
    dsimp only at heq
    split at heq
    · cases first with
      | none =>
        exact ih (i + 1) (some i) f s (by omega)
          (fun j hj => by cases hj; omega) heq
      | some f0 =>
        cases heq
        exact ⟨hfirst f rfl, by omega⟩
    · exact ih (i + 1) first f s (by omega) hfirst heq

/-- The positive-divergence condition is false on an all-`c` series at
the default 20-bar lookback: both detected lows carry the same price, so
the strict lower-low test fails. -/
theorem detectPositiveRSIDivergence_const {l : List ℚ} {c : ℚ}
    (h : ∀ x ∈ l, x = c) (hlen : 20 ≤ l.length) (rsiData : List (Option ℚ))
    (hrl : 20 ≤ rsiData.length) :
    detectPositiveRSIDivergence l rsiData 20 = false := by
  unfold detectPositiveRSIDivergence
  rw [if_neg (by
    push_neg
    constructor
    · exact_mod_cast hlen
    · exact_mod_cast hrl)]
  have hk : ((⌊(20 : ℚ)⌋).toNat) = 20 := by decide
  rw [hk]
  dsimp only
  have hreclen : (l.drop (l.length - 20)).length = 20 := by
    rw [List.length_drop]
    omega
  have hrec : ∀ x ∈ l.drop (l.length - 20), x = c :=
    fun x hx => h x (List.mem_of_mem_drop hx)
  cases heq : findTwoLows (l.drop (l.length - 20)) 5 none with
  | none => rfl
  | some fs =>
    obtain ⟨f, s⟩ := fs
    unfold findTwoLows at heq
    rw [hreclen] at heq
    have hb := findTwoLowsAux_bounds (l.drop (l.length - 20)) (20 - 5 - 5) 5 none f s
      (by rw [hreclen]) (fun j hj => by cases hj) heq
    rw [hreclen] at hb
    dsimp only
    rw [getD_of_const hrec (by omega) 0, getD_of_const hrec (by omega) 0]
    rw [decide_eq_false (lt_irrefl c)]
    rw [Bool.false_and]

/-- C8.  For every candle series of length ≥ 220 whose closes, highs and
lows all equal one positive constant and whose volumes are all zero,
`analyzeBreakout` with the default config is not a breakout candidate:
only the consolidation and Bollinger-compression conditions can fire
(at most 35 points), below the 70-point bar. -/
theorem flat_zero_series_not_candidate (data : List Candle) (c : ℚ) (hc : 0 < c)
    (hlen : 220 ≤ data.length)
    (hconst : ∀ d ∈ data, d.close = c ∧ d.high = c ∧ d.low = c ∧ d.volume = 0) :
    (analyzeBreakout data defaultOptions).isBreakoutCandidate = false := by
  have hclose : ∀ x ∈ data.map Candle.close, x = c := by
    intro x hx
    obtain ⟨d, hd, rfl⟩ := List.mem_map.mp hx
    exact (hconst d hd).1
  have hvol : ∀ x ∈ data.map Candle.volume, x = 0 := by
    intro x hx
    obtain ⟨d, hd, rfl⟩ := List.mem_map.mp hx
    exact (hconst d hd).2.2.2
  have hcl : (data.map Candle.close).length = data.length := List.length_map _ _
  have hrsl : 20 ≤ (calculateRSI (data.map Candle.close) 14).length := by
    rw [calculateRSI_length, hcl]
    omega
  unfold analyzeBreakout
  dsimp only [defaultOptions, jsOrD, Option.getD]
  have h20 : ((⌊(20 : ℚ)⌋).toNat) = 20 := by decide
  rw [h20]
  have hclast : (data.map Candle.close).getD ((data.map Candle.close).length - 1) 0 = c :=
    getD_of_const hclose (by omega) 0
  rw [hclast]
  rw [rsiInRange_const hclose]
  rw [detectBollingerBreakout_const hclose (ne_of_gt hc) (by omega)]
  rw [aboveEma200Cond_const hclose]
  rw [isVolumeIncreasing_zero hvol]
  rw [detectPositiveRSIDivergence_const hclose (by omega) _ hrsl]
  rw [macdCrossover_const hclose]
  rw [obvAccumulating_const hclose hvol]
  rw [breakoutPercentCond_const hclose (ne_of_gt hc) (by omega)]
  simp only [Bool.false_eq_true, if_false]
  rw [decide_eq_false_iff_not]
  intro habs
  have h1 : (if isPriceConsolidating (data.map Candle.close) 6 0.15 then (20 : ℚ) else 0) ≤ 20 := by
    split <;> norm_num
  have h3 : (if bbCompressed (calculateBollingerBands (data.map Candle.close) 20 2)
      then (15 : ℚ) else 0) ≤ 15 := by
    split <;> norm_num
  have hmin := min_le_right (100 : ℚ)
    ((if isPriceConsolidating (data.map Candle.close) 6 0.15 then (20 : ℚ) else 0) + 0 +
      (if bbCompressed (calculateBollingerBands (data.map Candle.close) 20 2)
        then (15 : ℚ) else 0) + 0 + 0 + 0 + 0 + 0 + 0 + 0)
  linarith

/-- Witness for C8: 220 constant unit-price, zero-volume candles. -/
theorem flat_zero_series_not_candidate_witness :
    0 < (1 : ℚ) ∧ 220 ≤ (List.replicate 220 (constCandle 1)).length ∧
      (∀ d ∈ List.replicate 220 (constCandle 1),
        d.close = 1 ∧ d.high = 1 ∧ d.low = 1 ∧ d.volume = 0) ∧
      (analyzeBreakout (List.replicate 220 (constCandle 1))
        defaultOptions).isBreakoutCandidate = false :=
  ⟨by decide, by simp,
    fun d hd => by rw [List.eq_of_mem_replicate hd]; exact ⟨rfl, rfl, rfl, rfl⟩,
    flat_zero_series_not_candidate (List.replicate 220 (constCandle 1)) 1 (by decide)
      (by simp)
      (fun d hd => by rw [List.eq_of_mem_replicate hd]; exact ⟨rfl, rfl, rfl, rfl⟩)⟩

/-- A weighted condition term is nonnegative. -/
theorem if_weight_nonneg (b : Bool) (w : ℚ) (hw : 0 ≤ w) :
    0 ≤ if b then w else 0 := by
  split
  · exact hw
  · exact le_refl 0

section ScoreNonneg

-- A purely symbolic bound; irreducible rational operations keep the
-- `add_nonneg` unifications from unfolding the score term.
attribute [local irreducible] Rat.add Rat.mul Rat.inv Rat.sub Rat.ofScientific

/-- The breakout score is nonnegative. -/
theorem breakoutScore_nonneg (data : List Candle) (options : Options) :
    0 ≤ (analyzeBreakout data options).breakoutScore := by
  unfold analyzeBreakout
  dsimp only
  refine le_min (by norm_num) ?_
  refine add_nonneg ?_ (if_weight_nonneg _ _ (by norm_num))
  refine add_nonneg ?_ (if_weight_nonneg _ _ (by norm_num))
  refine add_nonneg ?_ (if_weight_nonneg _ _ (by norm_num))
  refine add_nonneg ?_ (if_weight_nonneg _ _ (by norm_num))
  refine add_nonneg ?_ (if_weight_nonneg _ _ (by norm_num))
  refine add_nonneg ?_ (if_weight_nonneg _ _ (by norm_num))
  refine add_nonneg ?_ (if_weight_nonneg _ _ (by norm_num))
  refine add_nonneg ?_ (if_weight_nonneg _ _ (by norm_num))
  refine add_nonneg ?_ (if_weight_nonneg _ _ (by norm_num))
  exact if_weight_nonneg _ _ (by norm_num)

end ScoreNonneg

/-- Source `Math.round` dominates any integer below its argument plus a half. -/
theorem jsRound_ge (z : ℤ) (x : ℚ) (h : (z : ℚ) ≤ x + 1/2) : z ≤ jsRound x :=
  Int.le_floor.mpr h

/-- The profit-potential tier is never the empty string. -/
theorem calculateProfitPotential_ne_empty (cl : List ℚ) (atr : List (Option ℚ))
    (bb : List BBPoint) (s : ℚ) : calculateProfitPotential cl atr bb s ≠ "" := by
  unfold calculateProfitPotential
  split
  · decide
  · dsimp only
    split_ifs <;> decide

/-- A "High" profit potential needs a breakout score above 75. -/
theorem calculateProfitPotential_high (cl : List ℚ) (atr : List (Option ℚ))
    (bb : List BBPoint) (s : ℚ) (h : calculateProfitPotential cl atr bb s = "High") :
    75 < s := by
  unfold calculateProfitPotential at h
  split at h
  · exact absurd h (by decide)
  · dsimp only at h
    split_ifs at h with h1 h2 h3 h4
    · exact absurd h (by decide)
    · exact absurd h (by decide)
    · exact h3.2
    · exact absurd h (by decide)
    · exact absurd h (by decide)

/-- A "Very High" profit potential needs a breakout score above 85. -/
theorem calculateProfitPotential_veryHigh (cl : List ℚ) (atr : List (Option ℚ))
    (bb : List BBPoint) (s : ℚ)
    (h : calculateProfitPotential cl atr bb s = "Very High") : 85 < s := by
  unfold calculateProfitPotential at h
  split at h
  · exact absurd h (by decide)
  · dsimp only at h
    split_ifs at h with h1 h2 h3 h4
    · exact absurd h (by decide)
    · exact h2.2
    · exact absurd h (by decide)
    · exact absurd h (by decide)
    · exact absurd h (by decide)

/-- The analyzer's profit potential being "High" bounds its score. -/
theorem analyzeBreakout_pp_high (data : List Candle) (options : Options)
    (h : (analyzeBreakout data options).profitPotential = "High") :
    75 < (analyzeBreakout data options).breakoutScore := by
  unfold analyzeBreakout at h ⊢
  dsimp only at h ⊢
  exact calculateProfitPotential_high _ _ _ _ h

/-- The analyzer's profit potential being "Very High" bounds its score. -/
theorem analyzeBreakout_pp_veryHigh (data : List Candle) (options : Options)
    (h : (analyzeBreakout data options).profitPotential = "Very High") :
    85 < (analyzeBreakout data options).breakoutScore := by
  unfold analyzeBreakout at h ⊢
  dsimp only at h ⊢
  exact calculateProfitPotential_veryHigh _ _ _ _ h

/-- The analyzer's profit potential is never empty. -/
theorem analyzeBreakout_pp_ne_empty (data : List Candle) (options : Options) :
    (analyzeBreakout data options).profitPotential ≠ "" := by
  unfold analyzeBreakout
  dsimp only
  exact calculateProfitPotential_ne_empty _ _ _ _

/-- Source `jsOrStr` keeps a non-empty first component. -/
theorem jsOrStr_of_ne_empty {a : String} (h : a ≠ "") (b : String) :
    jsOrStr a b = a := by
  unfold jsOrStr
  rw [if_neg h]

/-- The capped one-decimal rounding of any value at least `0.95` is at
least 1. -/
theorem conf_min_ge_one (v : ℚ) (hv : (0.95 : ℚ) ≤ v) :
    (1 : ℚ) ≤ min 10 ((jsRound (v * 10) : ℚ) / 10) := by
  refine le_min (by norm_num) ?_
  have h10 : (10 : ℤ) ≤ jsRound (v * 10) := jsRound_ge 10 _ (by push_cast; linarith)
  have h10q : (10 : ℚ) ≤ (jsRound (v * 10) : ℚ) := by exact_mod_cast h10
  linarith

/-- On any aggregate whose profit potential passes the signal gate (High
or Very High, or Medium with an aggregate score above 85), the
confidence score lies in `[1, 10]`. -/
theorem confidence_bounds (hourlyData fourHourData dailyData : List Candle)
    (opts : Options)
    (hpp : (multiTimeframeAnalysis hourlyData fourHourData dailyData opts).profitPotential = "High" ∨
      (multiTimeframeAnalysis hourlyData fourHourData dailyData opts).profitPotential = "Very High" ∨
      ((multiTimeframeAnalysis hourlyData fourHourData dailyData opts).profitPotential = "Medium" ∧
        85 < (multiTimeframeAnalysis hourlyData fourHourData dailyData opts).mtfScore)) :
    1 ≤ calculateConfidenceScore (multiTimeframeAnalysis hourlyData fourHourData dailyData opts) ∧
      calculateConfidenceScore (multiTimeframeAnalysis hourlyData fourHourData dailyData opts) ≤ 10 := by
  have hpp_eq : (multiTimeframeAnalysis hourlyData fourHourData dailyData opts).profitPotential =
      (analyzeBreakout dailyData opts).profitPotential :=
    jsOrStr_of_ne_empty (analyzeBreakout_pp_ne_empty _ _) _
  have hms : (multiTimeframeAnalysis hourlyData fourHourData dailyData opts).mtfScore =
      (jsRound ((analyzeBreakout hourlyData opts).breakoutScore * 0.2 +
        (analyzeBreakout fourHourData opts).breakoutScore * 0.3 +
        (analyzeBreakout dailyData opts).breakoutScore * 0.5) : ℚ) := rfl
  constructor
  · unfold calculateConfidenceScore
    dsimp only
    apply conf_min_ge_one
    have hA : (0 : ℚ) ≤
        (if 6 ≤ (multiTimeframeAnalysis hourlyData fourHourData dailyData opts).alignmentScore
          then (1 : ℚ)
          else if 4 ≤ (multiTimeframeAnalysis hourlyData fourHourData dailyData opts).alignmentScore
            then 1/2 else 0) := by
      split_ifs <;> norm_num
    have hH := breakoutScore_nonneg hourlyData opts
    have hF := breakoutScore_nonneg fourHourData opts
    rcases hpp with h | h | ⟨h, hm⟩
    · have hd := analyzeBreakout_pp_high dailyData opts (hpp_eq ▸ h)
      have hr : (38 : ℤ) ≤ jsRound ((analyzeBreakout hourlyData opts).breakoutScore * 0.2 +
          (analyzeBreakout fourHourData opts).breakoutScore * 0.3 +
          (analyzeBreakout dailyData opts).breakoutScore * 0.5) :=
        jsRound_ge 38 _ (by push_cast; nlinarith)
      have hms38 : (38 : ℚ) ≤
          (multiTimeframeAnalysis hourlyData fourHourData dailyData opts).mtfScore := by
        rw [hms]
        exact_mod_cast hr
      rw [h]
      have hppv : (if ("High" : String) = "Very High" then (1 : ℚ)
          else if ("High" : String) = "High" then 1/2 else 0) = 1/2 := by decide
      rw [hppv]
      linarith
    · have hd := analyzeBreakout_pp_veryHigh dailyData opts (hpp_eq ▸ h)
      have hr : (43 : ℤ) ≤ jsRound ((analyzeBreakout hourlyData opts).breakoutScore * 0.2 +
          (analyzeBreakout fourHourData opts).breakoutScore * 0.3 +
          (analyzeBreakout dailyData opts).breakoutScore * 0.5) :=
        jsRound_ge 43 _ (by push_cast; nlinarith)
      have hms43 : (43 : ℚ) ≤
          (multiTimeframeAnalysis hourlyData fourHourData dailyData opts).mtfScore := by
        rw [hms]
        exact_mod_cast hr
      rw [h]
      have hppv : (if ("Very High" : String) = "Very High" then (1 : ℚ)
          else if ("Very High" : String) = "High" then 1/2 else 0) = 1 := by decide
      rw [hppv]
      linarith
    · rw [hms] at hm
      have hm86 : (86 : ℤ) ≤ jsRound ((analyzeBreakout hourlyData opts).breakoutScore * 0.2 +
          (analyzeBreakout fourHourData opts).breakoutScore * 0.3 +
          (analyzeBreakout dailyData opts).breakoutScore * 0.5) := by
        have : (85 : ℤ) < jsRound ((analyzeBreakout hourlyData opts).breakoutScore * 0.2 +
            (analyzeBreakout fourHourData opts).breakoutScore * 0.3 +
            (analyzeBreakout dailyData opts).breakoutScore * 0.5) := by
          exact_mod_cast hm
        omega
      have hm86q : (86 : ℚ) ≤
          (multiTimeframeAnalysis hourlyData fourHourData dailyData opts).mtfScore := by
        rw [hms]
        exact_mod_cast hm86
      have hP : (0 : ℚ) ≤
          (if (multiTimeframeAnalysis hourlyData fourHourData dailyData opts).profitPotential =
              "Very High" then (1 : ℚ)
            else if (multiTimeframeAnalysis hourlyData fourHourData dailyData
              opts).profitPotential = "High" then 1/2 else 0) := by
        split_ifs <;> norm_num
      linarith
  · unfold calculateConfidenceScore
    exact min_le_left _ _

/-- The success-probability estimate is clamped to `[60, 95]` and is an
integer. -/
theorem successProbability_bounds (mtfScore : ℚ) (alignmentScore : ℕ)
    (profitPotential : String) (stopLossPercent : Option ℚ) :
    60 ≤ estimateSuccessProbability mtfScore alignmentScore profitPotential stopLossPercent ∧
    estimateSuccessProbability mtfScore alignmentScore profitPotential stopLossPercent ≤ 95 ∧
    ∃ z : ℤ, estimateSuccessProbability mtfScore alignmentScore profitPotential
      stopLossPercent = (z : ℚ) := by
  unfold estimateSuccessProbability
  dsimp only
  refine ⟨le_min (by norm_num) (le_max_left _ _), min_le_left _ _, ?_⟩
  refine ⟨min 95 (max 60 (jsRound (mtfScore * 0.8 +
    (if 6 ≤ alignmentScore then 10 else if 4 ≤ alignmentScore then 5 else 0) +
    (if profitPotential = "Very High" then 5
     else if profitPotential = "High" then 3
     else if profitPotential = "Medium" then 1 else 0) +
    (match stopLossPercent with
     | some v => if v < 2 then -5 else if 4 < v then -3 else 0
     | none => 0)))), ?_⟩
  push_cast
  rfl

/-- Any aggregate that passes the profit-potential gate yields in-range
confidence and success-probability scores, for every stop-width. -/
theorem successGate_scores (hourlyData fourHourData dailyData : List Candle)
    (config : SGConfig) (slp : Option ℚ)
    (hb : ((multiTimeframeAnalysis hourlyData fourHourData dailyData
        (sgOptions config)).profitPotential == "High" ||
      (multiTimeframeAnalysis hourlyData fourHourData dailyData
        (sgOptions config)).profitPotential == "Very High" ||
      ((multiTimeframeAnalysis hourlyData fourHourData dailyData
        (sgOptions config)).profitPotential == "Medium" &&
        decide ((85 : ℚ) < (multiTimeframeAnalysis hourlyData fourHourData dailyData
          (sgOptions config)).mtfScore))) = true) :
    1 ≤ calculateConfidenceScore
        (multiTimeframeAnalysis hourlyData fourHourData dailyData (sgOptions config)) ∧
      calculateConfidenceScore
        (multiTimeframeAnalysis hourlyData fourHourData dailyData (sgOptions config)) ≤ 10 ∧
      60 ≤ estimateSuccessProbability
        (multiTimeframeAnalysis hourlyData fourHourData dailyData (sgOptions config)).mtfScore
        (multiTimeframeAnalysis hourlyData fourHourData dailyData
          (sgOptions config)).alignmentScore
        (multiTimeframeAnalysis hourlyData fourHourData dailyData
          (sgOptions config)).profitPotential slp ∧
      estimateSuccessProbability
        (multiTimeframeAnalysis hourlyData fourHourData dailyData (sgOptions config)).mtfScore
        (multiTimeframeAnalysis hourlyData fourHourData dailyData
          (sgOptions config)).alignmentScore
        (multiTimeframeAnalysis hourlyData fourHourData dailyData
          (sgOptions config)).profitPotential slp ≤ 95 ∧
      ∃ z : ℤ, estimateSuccessProbability
        (multiTimeframeAnalysis hourlyData fourHourData dailyData (sgOptions config)).mtfScore
        (multiTimeframeAnalysis hourlyData fourHourData dailyData
          (sgOptions config)).alignmentScore
        (multiTimeframeAnalysis hourlyData fourHourData dailyData
          (sgOptions config)).profitPotential slp = (z : ℚ) := by
  simp only [Bool.or_eq_true, Bool.and_eq_true, beq_iff_eq, decide_eq_true_eq] at hb
  have hconf : 1 ≤ calculateConfidenceScore
      (multiTimeframeAnalysis hourlyData fourHourData dailyData (sgOptions config)) ∧
      calculateConfidenceScore
        (multiTimeframeAnalysis hourlyData fourHourData dailyData (sgOptions config)) ≤ 10 := by
    rcases hb with (hp | hp) | ⟨hp, hm⟩
    · exact confidence_bounds hourlyData fourHourData dailyData _ (Or.inl hp)
    · exact confidence_bounds hourlyData fourHourData dailyData _ (Or.inr (Or.inl hp))
    · exact confidence_bounds hourlyData fourHourData dailyData _ (Or.inr (Or.inr ⟨hp, hm⟩))
  have hprob := successProbability_bounds
    (multiTimeframeAnalysis hourlyData fourHourData dailyData (sgOptions config)).mtfScore
    (multiTimeframeAnalysis hourlyData fourHourData dailyData (sgOptions config)).alignmentScore
    (multiTimeframeAnalysis hourlyData fourHourData dailyData (sgOptions config)).profitPotential
    slp
  exact ⟨hconf.1, hconf.2, hprob.1, hprob.2.1, hprob.2.2⟩

/-- C7.  Whenever `generateBreakoutSignal` succeeds, the emitted signal's
confidence lies in `[1, 10]` and its success probability is an integer
in `[60, 95]`. -/
theorem signal_scores_in_range (coinData : CoinData) (options : Options) (sig : Signal)
    (h : generateBreakoutSignal coinData options = .success sig) :
    1 ≤ sig.confidence ∧ sig.confidence ≤ 10 ∧
      60 ≤ sig.successProbability ∧ sig.successProbability ≤ 95 ∧
      ∃ z : ℤ, sig.successProbability = (z : ℚ) := by
  unfold generateBreakoutSignal generateBreakoutSignalCore at h
  split at h
  case _ hourlyData fourHourData dailyData =>
    dsimp only at h
    split at h
    · exact GenResult.noConfusion h
    · split at h
      · exact GenResult.noConfusion h
      · rename_i hvalid
        rw [Bool.not_eq_true, Bool.not_eq_false'] at hvalid
        simp only [Bool.and_eq_true] at hvalid
        repeat' split at h
        any_goals exact GenResult.noConfusion h
        all_goals injection h with h2
        all_goals subst h2
        all_goals exact successGate_scores _ _ _ _ _ hvalid.2
  case _ =>
    exact GenResult.noConfusion h

/-- Witness for C7: the spike series succeeds and emits `spikeSignal`
(confidence 10, success probability 92). -/
theorem signal_scores_in_range_witness :
    generateBreakoutSignal spikeCoin signalOpts = .success spikeSignal ∧
      (1 ≤ spikeSignal.confidence ∧ spikeSignal.confidence ≤ 10 ∧
        60 ≤ spikeSignal.successProbability ∧ spikeSignal.successProbability ≤ 95 ∧
        ∃ z : ℤ, spikeSignal.successProbability = (z : ℚ)) := by
  have hEq : generateBreakoutSignal spikeCoin signalOpts = .success spikeSignal := by decide
  exact ⟨hEq, signal_scores_in_range spikeCoin signalOpts spikeSignal hEq⟩
